import Mathlib

/-!
# irfu_cdfwrite_sitl_dce: the MMS quick-look DCE CDF writer

Shallow embedding of `mission/mms/irfu_cdfwrite/irfu_cdfwrite_sitl_dce.c`.

The MEX gateway `mexFunction` validates its six MATLAB arguments and then issues a
fixed, straight-line sequence of 178 CDF library calls, each followed by
`if (status != CDF_OK) UserStatusHandler (status);`.  The embedding keeps

* the MATLAB arguments as `mxArray` records (class id, dimensions, stored elements),
* every library call, with the arguments the source passes, as a value of `Call`,
* the CDF library as a parameter: a function giving the status of a call from the
  calls issued before it,
* the run of the gateway as an `Outcome`: the error raised through
  `mexErrMsgIdAndTxt` (if any), the library calls issued, the lines printed.
-/

namespace IrfuCdfWrite

/-! ## C data -/

/-- The conversion to `int8_t` (value preserving on -128..127). -/
def toInt8 (v : Int) : Int := (v + 2 ^ 7) % 2 ^ 8 - 2 ^ 7

/-- The conversion to `signed long long` (64 bit, two's complement). -/
def toInt64 (v : Int) : Int := (v + 2 ^ 63) % 2 ^ 64 - 2 ^ 63

/-- The conversion to `unsigned int` (32 bit). -/
def toUInt32 (v : Int) : Nat := (v % 2 ^ 32).toNat

/-- The conversion to `int` (32 bit, two's complement). -/
def toInt32 (v : Int) : Int := (v + 2 ^ 31) % 2 ^ 32 - 2 ^ 31

/-- A decimal floating constant of the C source, kept as written:
`negative`, `mantissa`, `exp10` stand for `(-1)^negative * mantissa * 10^exp10`.
The source initialises `float` arrays from such constants; the embedding keeps the
constant and does not compute its binary32 rounding. -/
structure DecimalLit where
  negative : Bool
  mantissa : Nat
  exp10 : Int
deriving DecidableEq

instance : OfScientific DecimalLit where
  ofScientific m s e := ⟨false, m, if s then -(e : Int) else (e : Int)⟩

instance : Neg DecimalLit where
  neg d := ⟨!d.negative, d.mantissa, d.exp10⟩

/-- The rational number a decimal constant denotes. -/
def DecimalLit.toRat (d : DecimalLit) : ℚ :=
  (if d.negative then -1 else 1) * (d.mantissa : ℚ) * (10 : ℚ) ^ d.exp10

/-- Conversion specifier `%d` of `sprintf` and `mexPrintf`. -/
def fmt_d (v : Int) : String := toString v

/-- C `strlen`: strings are kept by their content before the terminating NUL. -/
def strlen (s : String) : Nat := s.length

/-- C `strcpy (tmp_string, src)`: the destination then holds `src`. -/
def strcpy (src : String) : String := src

/-- C `strcat (dst, src)`. -/
def strcat (dst src : String) : String := dst ++ src

/-! ## MATLAB arrays (mex.h) -/

/-- A MATLAB array as the gateway sees it through the mex API. `pr` holds the stored
elements in storage (column-major) order: character codes for a char array, integers
for integer classes, and the IEEE-754 bit pattern of each element for `single` and
`double`; the gateway never computes on the elements of its data arguments. -/
structure mxArray where
  classID : Nat
  className : String
  M : Nat
  N : Nat
  pr : List Int
deriving DecidableEq

def mxGetClassID (a : mxArray) : Nat := a.classID

def mxGetClassName (a : mxArray) : String := a.className

def mxGetM (a : mxArray) : Nat := a.M

def mxGetN (a : mxArray) : Nat := a.N

/-- The array's element storage, as `mxGetData` points to it. -/
def mxGetData (a : mxArray) : List Int := a.pr

/-- The first stored element (for an integer class array, an integer). -/
def mxGetScalar (a : mxArray) : Int := a.pr.headD 0

/-- The char array as a C string: its characters up to the first NUL. -/
def mxArrayToString (a : mxArray) : String :=
  String.mk ((a.pr.map (fun c => Char.ofNat c.toNat)).takeWhile (fun c => c != Char.ofNat 0))

/-- An array as MATLAB builds it holds `M * N` elements. -/
def mxArray.wellFormed (a : mxArray) : Prop := a.pr.length = a.M * a.N

instance (a : mxArray) : Decidable a.wellFormed := by
  unfold mxArray.wellFormed; exact inferInstance

/-! ## The CDF library interface (cdf.h) -/

/-- The status a library call returns. The C type `CDFstatus` is `long` (cdf.h), of 64 bit
on the platform the header of the source names (Linux 64bit, gcc); the statuses a library
answers with are values of that type. -/
abbrev CDFstatus := Int

/-- Status of a successful call (cdf.h). -/
def CDF_OK : CDFstatus := 0

inductive CDFdataType where
  | CDF_INT1 | CDF_INT2 | CDF_INT4 | CDF_INT8
  | CDF_UINT1 | CDF_UINT2 | CDF_UINT4
  | CDF_REAL4 | CDF_REAL8 | CDF_FLOAT | CDF_DOUBLE
  | CDF_EPOCH | CDF_EPOCH16 | CDF_TIME_TT2000
  | CDF_BYTE | CDF_CHAR | CDF_UCHAR
deriving DecidableEq

inductive CDFencoding where
  | NETWORK_ENCODING | HOST_ENCODING | IBMPC_ENCODING | SUN_ENCODING | VAX_ENCODING
deriving DecidableEq

inductive CDFmajority where
  | ROW_MAJOR | COLUMN_MAJOR
deriving DecidableEq

inductive CDFvariance where
  | VARY | NOVARY
deriving DecidableEq

inductive CDFscope where
  | GLOBAL_SCOPE | VARIABLE_SCOPE
deriving DecidableEq

export CDFvariance (VARY NOVARY)

/-- The C variables that receive a zVariable number from `CDFcreatezVar` and name the
zVariable in later calls. -/
inductive VarNum where
  | EPOCHvarNum | LABELvarNum | SENSORvarNum | SENSORvarNumDSL | BITMASKvarNum
deriving DecidableEq

/-- The memory an attribute entry call is handed: text (the content of the character
buffer up to its NUL), or an array of the given C element type. -/
inductive AttrValue where
  | chars (s : String)
  | int64s (v : List Int)
  | uint32s (v : List Nat)
  | floats (v : List DecimalLit)
deriving DecidableEq

/-- The memory a data write is handed: the element storage of a MATLAB array (cast to
the pointer type of the write without any check), or a string constant. -/
inductive Buffer where
  | mxData (pr : List Int)
  | chars (s : String)
deriving DecidableEq

/-- One CDF library call with the arguments the gateway passes. The CDF identifier is
left out (there is one); an attribute is named by the string handed to
`CDFgetAttrNum`, a zVariable by the C variable holding its number. -/
inductive Call where
  | CDFcreateCDF (cdfName : String)
  | CDFsetEncoding (encoding : CDFencoding)
  | CDFsetMajority (majority : CDFmajority)
  | CDFcreatezVar (varName : String) (dataType : CDFdataType) (numElements : Nat)
      (numDims : Nat) (dimSizes : List Nat) (recVary : CDFvariance)
      (dimVarys : List CDFvariance) (varNum : VarNum)
  | CDFattrCreate (attrName : String) (scope : CDFscope)
  | CDFputAttrgEntry (attrName : String) (entryNum : Nat) (dataType : CDFdataType)
      (numElements : Nat) (value : AttrValue)
  | CDFputAttrzEntry (attrName : String) (varNum : VarNum) (dataType : CDFdataType)
      (numElements : Nat) (value : AttrValue)
  | CDFputzVarAllRecordsByVarID (varNum : VarNum) (numRecs : Nat) (buffer : Buffer)
  | CDFcloseCDF
deriving DecidableEq

/-- The library: the status it returns for a call, given the calls issued before. -/
abbrev CDFlib := List Call → Call → CDFstatus

/-! ## Errors and the status handler -/

/-- An error raised with `mexErrMsgIdAndTxt`: it ends the MEX function at once. -/
structure MexError where
  identifier : String
  message : String
deriving DecidableEq

/-- What a run of the gateway leaves behind. -/
structure Outcome where
  error : Option MexError
  calls : List Call
  printed : List String
deriving DecidableEq

/-- Source lines 41-53, `void UserStatusHandler(int status)`. The caller hands over its
`long` status, which the parameter receives converted to `int`. For status -2013
`mexErrMsgIdAndTxt` ends the MEX function; for any other status the handler prints one
line, with the `int` it received, and returns to its caller. -/
def UserStatusHandler (longStatus : CDFstatus) : Except MexError String :=
  let status := toInt32 longStatus
  if status = -2013 then
    .error ⟨"MATLAB:irfu_cdfwrite:filename_output:exists",
      "A file with requested filename already exists in the output dir DROPBOX_ROOT/. Can occur if rerun before other scripts have moved it to its final destination."⟩
  else
    .ok ("Error found as: " ++ fmt_d status ++ "\n")

/-- The statement pattern `status = call; if (status != CDF_OK) UserStatusHandler (status);`
run over the calls still to come, from the calls issued and lines printed so far. -/
def runCalls (lib : CDFlib) : List Call → List Call → List String → Outcome
  | [], issued, printed => ⟨none, issued, printed⟩
  | c :: rest, issued, printed =>
    let status := lib issued c
    if status ≠ CDF_OK then
      match UserStatusHandler status with
      | .error e => ⟨some e, issued ++ [c], printed⟩
      | .ok line => runCalls lib rest (issued ++ [c]) (printed ++ [line])
    else
      runCalls lib rest (issued ++ [c]) printed

/-! ## The call sequence of `mexFunction` -/

/-- The order in which the two argument expressions of one call that both write
`tmp_string` are evaluated; C leaves it to the compiler. -/
inductive ArgOrder where
  | lengthFirst
  | valueFirst
deriving DecidableEq

/-- The content of `tmp_string` when the library call is entered: the call
`f (..., strlen (strcat (strcpy (tmp_string, sc), a)), strcat (strcpy (tmp_string, sc), b))`
passes the pointer `tmp_string`, which holds the text built last. -/
def tmp_string_at_call (order : ArgOrder) (lengthArg valueArg : String) : String :=
  match order with
  | .lengthFirst => valueArg
  | .valueFirst => lengthArg

def EPOCHrecVary : CDFvariance := VARY
def LABELrecVary : CDFvariance := NOVARY
def SENSORrecVary : CDFvariance := VARY
def BITMASKrecVary : CDFvariance := VARY
def EPOCHdimVarys : List CDFvariance := [NOVARY]
def LABELdimVarys : List CDFvariance := [VARY]
def SENSORdimVarys : List CDFvariance := [VARY]
def BITMASKdimVarys : List CDFvariance := [VARY]
def EPOCHdimSizes : List Nat := [3]
def LABELdimSizes : List Nat := [3]
def SENSORdimSizes : List Nat := [3]
def BITMASKdimSizes : List Nat := [1]

def ValidMin_1 : AttrValue := .int64s [toInt64 (-431358160000000)]
def ValidMax_1 : AttrValue := .int64s [toInt64 946728067183999999]
def Fillval_1 : AttrValue := .int64s [toInt64 (-9223372036854775808)]
def ValidMin_5 : AttrValue := .floats [-60.14]
def ValidMax_5 : AttrValue := .floats [60.14]
def Fillval_5 : AttrValue := .floats [-1.0e+31]
def ValidMin_6 : AttrValue := .floats [-60.14]
def ValidMax_6 : AttrValue := .floats [60.14]
def Fillval_6 : AttrValue := .floats [-1.0e+31]
def ValidMin_7 : AttrValue := .uint32s [toUInt32 1]
def ValidMax_7 : AttrValue := .uint32s [toUInt32 262144]
def Fillval_7 : AttrValue := .uint32s [toUInt32 4294967295]

/-- Source lines 219-239: the five zVariables. -/
def createzVars (sc : String) : List Call :=
  [ .CDFcreatezVar (strcat (strcpy sc) "sdp_epoch_dce") .CDF_TIME_TT2000 1 0 EPOCHdimSizes EPOCHrecVary EPOCHdimVarys .EPOCHvarNum,
    .CDFcreatezVar "DCE_LABL_1" .CDF_CHAR 4 1 LABELdimSizes LABELrecVary LABELdimVarys .LABELvarNum,
    .CDFcreatezVar (strcat (strcpy sc) "sdp_dce_xyz_pgse") .CDF_REAL4 1 1 SENSORdimSizes SENSORrecVary SENSORdimVarys .SENSORvarNum,
    .CDFcreatezVar (strcat (strcpy sc) "sdp_dce_xyz_dsl") .CDF_REAL4 1 1 SENSORdimSizes SENSORrecVary SENSORdimVarys .SENSORvarNumDSL,
    .CDFcreatezVar (strcat (strcpy sc) "sdp_dce_bitmask") .CDF_UINT4 1 1 BITMASKdimSizes BITMASKrecVary BITMASKdimVarys .BITMASKvarNum ]

/-- Source lines 251-318: the global attributes. -/
def createGlobalAttributes : List Call :=
  [ .CDFattrCreate "Project" .GLOBAL_SCOPE, -- REQ.
    .CDFattrCreate "Discipline" .GLOBAL_SCOPE, -- REQ.
    .CDFattrCreate "Validity" .GLOBAL_SCOPE, -- NOT REQ, but listed in skeleton
    .CDFattrCreate "Validator" .GLOBAL_SCOPE, -- NOT REQ, but listed in skeleton
    .CDFattrCreate "Caveats" .GLOBAL_SCOPE, -- NOT REQ, but listed in skeleton
    .CDFattrCreate "Source_name" .GLOBAL_SCOPE, -- REQ.
    .CDFattrCreate "Data_type" .GLOBAL_SCOPE, -- REQ.
    .CDFattrCreate "Descriptor" .GLOBAL_SCOPE, -- REQ.
    .CDFattrCreate "Data_version" .GLOBAL_SCOPE, -- REQ.
    .CDFattrCreate "TITLE" .GLOBAL_SCOPE, -- NOT REQ, but listed in skeleton
    .CDFattrCreate "Logical_file_id" .GLOBAL_SCOPE, -- REQ.
    .CDFattrCreate "Logical_source" .GLOBAL_SCOPE, -- REQ.
    .CDFattrCreate "Logical_source_description" .GLOBAL_SCOPE, -- REQ.
    .CDFattrCreate "Mission_group" .GLOBAL_SCOPE, -- REQ.
    .CDFattrCreate "PI_name" .GLOBAL_SCOPE, -- REQ.
    .CDFattrCreate "PI_affiliation" .GLOBAL_SCOPE, -- REQ.
    .CDFattrCreate "Acknowledgement" .GLOBAL_SCOPE, -- NOT REQ, but REC.
    .CDFattrCreate "Generated_by" .GLOBAL_SCOPE, -- NOT REQ, but REC.
    .CDFattrCreate "Generation_date" .GLOBAL_SCOPE, -- REQ.
    .CDFattrCreate "Rules_of_use" .GLOBAL_SCOPE, -- NOT REQ, but OPT.
    .CDFattrCreate "Skeleton_version" .GLOBAL_SCOPE, -- NOT REQ, but OPT.
    .CDFattrCreate "Software_version" .GLOBAL_SCOPE, -- NOT REQ, but listed in skeleton
    .CDFattrCreate "Validate" .GLOBAL_SCOPE, -- NOT REQ, but listed in skeleton
    .CDFattrCreate "SC_Eng_id" .GLOBAL_SCOPE, -- NOT REQ, but listed in skeleton
    .CDFattrCreate "File_naming_convention" .GLOBAL_SCOPE, -- NOT REQ, but listed in skeleton
    .CDFattrCreate "Instrument_type" .GLOBAL_SCOPE, -- REQ.
    .CDFattrCreate "LINK_TITLE" .GLOBAL_SCOPE, -- REQ.
    .CDFattrCreate "HTTP_LINK" .GLOBAL_SCOPE, -- REQ.
    .CDFattrCreate "LINK_TEXT" .GLOBAL_SCOPE, -- REQ.
    .CDFattrCreate "Time_resolution" .GLOBAL_SCOPE, -- NOT REQ, but OPT.
    .CDFattrCreate "TEXT" .GLOBAL_SCOPE, -- REQ.
    .CDFattrCreate "MODS" .GLOBAL_SCOPE, -- REQ.
    .CDFattrCreate "ADID_ref" .GLOBAL_SCOPE, -- NOT REQ, but listed in skeleton
    .CDFattrCreate "Parents" .GLOBAL_SCOPE -- NOT REQ, but OPT.
  ]

/-- Source lines 326-437: the entries of the global attributes. -/
def writeGlobalAttributes (order : ArgOrder) (filename sc tmp : String) : List Call :=
  [ .CDFputAttrgEntry "Project" 0 .CDF_CHAR (strlen "STP>Solar-Terrestrial Physics") (.chars "STP>Solar-Terrestrial Physics"),
    .CDFputAttrgEntry "Discipline" 0 .CDF_CHAR (strlen "Space Physics>Magnetospheric Science") (.chars "Space Physics>Magnetospheric Science"),
    .CDFputAttrgEntry "Validity" 0 .CDF_CHAR (strlen " ") (.chars " "),
    .CDFputAttrgEntry "Validator" 0 .CDF_CHAR (strlen " ") (.chars " "),
    .CDFputAttrgEntry "Caveats" 0 .CDF_CHAR (strlen " ") (.chars " "),
    .CDFputAttrgEntry "Source_name" 0 .CDF_CHAR (strlen tmp) (.chars tmp),
    .CDFputAttrgEntry "Data_type" 0 .CDF_CHAR (strlen "DCE>DC Double Probe Electric Field") (.chars "DCE>DC Double Probe Electric Field"),
    .CDFputAttrgEntry "Descriptor" 0 .CDF_CHAR (strlen "ADP-SDP>Axial Double Probe- Spin Plane Double Probe") (.chars "ADP-SDP>Axial Double Probe- Spin Plane Double Probe"),
    .CDFputAttrgEntry "Data_version" 0 .CDF_CHAR (strlen "v.0.0.0") (.chars "v.0.0.0"),
    .CDFputAttrgEntry "TITLE" 0 .CDF_CHAR (strlen " ") (.chars " "),
    .CDFputAttrgEntry "Logical_file_id" 0 .CDF_CHAR (strlen filename) (.chars filename),
    .CDFputAttrgEntry "Logical_source" 0 .CDF_CHAR (strlen (strcat (strcpy sc) "sdp_dce"))
      (.chars (tmp_string_at_call order (strcat (strcpy sc) "sdp_dce") (strcat (strcpy sc) "sdp_epoch_dce"))),
    .CDFputAttrgEntry "Logical_source_description" 0 .CDF_CHAR (strlen (strcat (strcpy sc) "sdp_16c_l1a_dce"))
      (.chars (tmp_string_at_call order (strcat (strcpy sc) "sdp_16c_l1a_dce") (strcat (strcpy sc) "sdp_16c_l1a_dce"))),
    .CDFputAttrgEntry "Mission_group" 0 .CDF_CHAR (strlen "MMS") (.chars "MMS"),
    .CDFputAttrgEntry "PI_name" 0 .CDF_CHAR (strlen "Burch, J., Ergun, R., Lindqvist, P.") (.chars "Burch, J., Ergun, R., Lindqvist, P."),
    .CDFputAttrgEntry "PI_affiliation" 0 .CDF_CHAR (strlen "SwRI, LASP, KTH") (.chars "SwRI, LASP, KTH"),
    .CDFputAttrgEntry "Generation_date" 0 .CDF_CHAR (strlen " ") (.chars " "),
    .CDFputAttrgEntry "Skeleton_version" 0 .CDF_CHAR (strlen " ") (.chars " "),
    .CDFputAttrgEntry "Software_version" 0 .CDF_CHAR (strlen " ") (.chars " "),
    .CDFputAttrgEntry "Validate" 0 .CDF_CHAR (strlen " ") (.chars " "),
    .CDFputAttrgEntry "SC_Eng_id" 0 .CDF_CHAR (strlen " ") (.chars " "),
    .CDFputAttrgEntry "File_naming_convention" 0 .CDF_CHAR (strlen "source_datatype_descriptor") (.chars "source_datatype_descriptor"),
    .CDFputAttrgEntry "Instrument_type" 0 .CDF_CHAR (strlen "Electric Fields (space)") (.chars "Electric Fields (space)"),
    .CDFputAttrgEntry "Time_resolution" 0 .CDF_CHAR (strlen "Configurable") (.chars "Configurable"),
    .CDFputAttrgEntry "TEXT" 0 .CDF_CHAR (strlen "L1A DC Electric Field") (.chars "L1A DC Electric Field"),
    .CDFputAttrgEntry "Parents" 0 .CDF_CHAR (strlen " ") (.chars " ") ]

/-- Source lines 445-508: the variable attributes. -/
def createVariableAttributes : List Call :=
  [ .CDFattrCreate "FIELDNAM" .VARIABLE_SCOPE, -- REQ. [for data, support data, meta data]
    .CDFattrCreate "VALIDMIN" .VARIABLE_SCOPE, -- REQ. [for data, support data]
    .CDFattrCreate "VALIDMAX" .VARIABLE_SCOPE, -- REQ. [for data, support data]
    .CDFattrCreate "SCALEMIN" .VARIABLE_SCOPE, -- NOT REQ. but listed in skeleton
    .CDFattrCreate "SCALEMAX" .VARIABLE_SCOPE, -- NOT REQ. but listed in skeleton
    .CDFattrCreate "LABLAXIS" .VARIABLE_SCOPE, -- REQ. (or LABL_PTR_1) [for data]
    .CDFattrCreate "LABL_PTR_1" .VARIABLE_SCOPE, -- REQ. (or LABLAXIS) [for data]
    .CDFattrCreate "UNITS" .VARIABLE_SCOPE, -- REQ. (or UNITS_PTR) [for data, support data]
    .CDFattrCreate "UNIT_PTR" .VARIABLE_SCOPE, -- REQ. (or UNITS) [for data, support data]
    .CDFattrCreate "FORMAT" .VARIABLE_SCOPE, -- REQ. (or FORM_PTR) [for data, support data, meta data]
    .CDFattrCreate "FORM_PTR" .VARIABLE_SCOPE, -- REQ. (or FORMAT) [for data, support data, meta data]
    .CDFattrCreate "FILLVAL" .VARIABLE_SCOPE, -- REQ. [for data, support data, meta data]
    .CDFattrCreate "VAR_TYPE" .VARIABLE_SCOPE, -- REQ. [for data, support data, meta data]
    .CDFattrCreate "DICT_KEY" .VARIABLE_SCOPE, -- NOT REQ. but listed in skeleton
    .CDFattrCreate "SCALETYP" .VARIABLE_SCOPE, -- NOT REQ. but listed in skeleton
    .CDFattrCreate "MONOTON" .VARIABLE_SCOPE, -- NOT REQ. but listed in skeleton
    .CDFattrCreate "AVG_TYPE" .VARIABLE_SCOPE, -- NOT REQ. but listed in skeleton
    .CDFattrCreate "CATDESC" .VARIABLE_SCOPE, -- REQ. [for data, support data, meta data]
    .CDFattrCreate "DELTA_PLUS_VAR" .VARIABLE_SCOPE, -- NOT REQ. but listed in skeleton
    .CDFattrCreate "DELTA_MINUS_VAR" .VARIABLE_SCOPE, -- NOT REQ. but listed in skeleton
    .CDFattrCreate "DEPEND_0" .VARIABLE_SCOPE, -- REQ. [for datai, support data, meta data]
    .CDFattrCreate "DEPEND_1" .VARIABLE_SCOPE, -- REQ. [for data]
    .CDFattrCreate "Calib_software" .VARIABLE_SCOPE, -- NOT REQ. but listed in skeleton
    .CDFattrCreate "Calib_input" .VARIABLE_SCOPE, -- NOT REQ. but listed in skeleton
    .CDFattrCreate "Frame" .VARIABLE_SCOPE, -- NOT REQ. but listed in skeleton
    .CDFattrCreate "SI_conversion" .VARIABLE_SCOPE, -- REQ. [for data]
    .CDFattrCreate "SI_conversion_ptr" .VARIABLE_SCOPE, -- NOT REQ. but listed in skeleton
    .CDFattrCreate "SC_id" .VARIABLE_SCOPE, -- NOT REQ. but listed in skeleton
    .CDFattrCreate "Sig_digits" .VARIABLE_SCOPE, -- NOT REQ. but listed in skeleton
    .CDFattrCreate "DISPLAY_TYPE" .VARIABLE_SCOPE, -- REQ. [for data]
    .CDFattrCreate "VAR_NOTES" .VARIABLE_SCOPE, -- NOT REQ. but listed in skeleton
    .CDFattrCreate "SCAL_PTR" .VARIABLE_SCOPE -- NOT REQ. but listed in skeleton
  ]

/-- Source lines 519-571: attribute entries of the epoch zVariable. -/
def writeEpochAttributes (order : ArgOrder) (sc scid : String) : List Call :=
  [ .CDFputAttrzEntry "FIELDNAM" .EPOCHvarNum .CDF_CHAR (strlen "Time tags") (.chars "Time tags"),
    .CDFputAttrzEntry "VALIDMIN" .EPOCHvarNum .CDF_TIME_TT2000 1 ValidMin_1,
    .CDFputAttrzEntry "VALIDMAX" .EPOCHvarNum .CDF_TIME_TT2000 1 ValidMax_1,
    .CDFputAttrzEntry "LABLAXIS" .EPOCHvarNum .CDF_CHAR (strlen (strcat (strcpy sc) "sdp_epoch_dce"))
      (.chars (tmp_string_at_call order (strcat (strcpy sc) "sdp_epoch_dce") (strcat (strcpy sc) "sdp_epoch_dce"))),
    .CDFputAttrzEntry "FILLVAL" .EPOCHvarNum .CDF_TIME_TT2000 1 Fillval_1,
    .CDFputAttrzEntry "VAR_TYPE" .EPOCHvarNum .CDF_CHAR (strlen "support_data") (.chars "support_data"),
    .CDFputAttrzEntry "DICT_KEY" .EPOCHvarNum .CDF_CHAR (strlen "time>TT2000") (.chars "time>TT2000"),
    .CDFputAttrzEntry "SCALETYP" .EPOCHvarNum .CDF_CHAR (strlen "linear") (.chars "linear"),
    .CDFputAttrzEntry "MONOTON" .EPOCHvarNum .CDF_CHAR (strlen "INCREASE") (.chars "INCREASE"),
    .CDFputAttrzEntry "CATDESC" .EPOCHvarNum .CDF_CHAR (strlen " ") (.chars " "),
    .CDFputAttrzEntry "Calib_software" .EPOCHvarNum .CDF_CHAR (strlen " ") (.chars " "),
    .CDFputAttrzEntry "Calib_input" .EPOCHvarNum .CDF_CHAR (strlen " ") (.chars " "),
    .CDFputAttrzEntry "Frame" .EPOCHvarNum .CDF_CHAR (strlen "scalar>na") (.chars "scalar>na"),
    .CDFputAttrzEntry "SI_conversion" .EPOCHvarNum .CDF_CHAR (strlen "1.0e-3>s") (.chars "1.0e-3>s"),
    .CDFputAttrzEntry "SC_id" .EPOCHvarNum .CDF_CHAR (strlen scid) (.chars scid),
    .CDFputAttrzEntry "Sig_digits" .EPOCHvarNum .CDF_CHAR (strlen "14") (.chars "14"),
    .CDFputAttrzEntry "DISPLAY_TYPE" .EPOCHvarNum .CDF_CHAR (strlen "time_series") (.chars "time_series") ]

/-- Source lines 652-662: attribute entries of the label zVariable. -/
def writeLabelAttributes : List Call :=
  [ .CDFputAttrzEntry "FIELDNAM" .LABELvarNum .CDF_CHAR (strlen "DCE_LABL_1") (.chars "DCE_LABL_1"),
    .CDFputAttrzEntry "FORMAT" .LABELvarNum .CDF_CHAR (strlen "A23") (.chars "A23"),
    .CDFputAttrzEntry "VAR_TYPE" .LABELvarNum .CDF_CHAR (strlen "meta_data") (.chars "meta_data"),
    .CDFputAttrzEntry "CATDESC" .LABELvarNum .CDF_CHAR (strlen "DCE_LABL_1") (.chars "DCE_LABL_1") ]

/-- Source lines 667-728: attribute entries of the pgse zVariable. -/
def writeSensorAttributes (order : ArgOrder) (sc scid : String) : List Call :=
  [ .CDFputAttrzEntry "FIELDNAM" .SENSORvarNum .CDF_CHAR (strlen (strcat (strcpy sc) "sdp_dce_xyz_pgse"))
      (.chars (tmp_string_at_call order (strcat (strcpy sc) "sdp_dce_xyz_pgse") (strcat (strcpy sc) "sdp_dce_xyz_pgse"))),
    .CDFputAttrzEntry "VALIDMIN" .SENSORvarNum .CDF_REAL4 1 ValidMin_5,
    .CDFputAttrzEntry "VALIDMAX" .SENSORvarNum .CDF_REAL4 1 ValidMax_5,
    .CDFputAttrzEntry "LABL_PTR_1" .SENSORvarNum .CDF_CHAR (strlen "DCE_LABL_1") (.chars "DCE_LABL_1"),
    .CDFputAttrzEntry "UNITS" .SENSORvarNum .CDF_CHAR (strlen "mV/m") (.chars "mV/m"),
    .CDFputAttrzEntry "FORMAT" .SENSORvarNum .CDF_CHAR (strlen "F8.3") (.chars "F8.3"),
    .CDFputAttrzEntry "FILLVAL" .SENSORvarNum .CDF_REAL4 1 Fillval_5,
    .CDFputAttrzEntry "VAR_TYPE" .SENSORvarNum .CDF_CHAR (strlen "data") (.chars "data"),
    .CDFputAttrzEntry "DICT_KEY" .SENSORvarNum .CDF_CHAR (strlen "dc_electric_field>vector") (.chars "dc_electric_field>vector"),
    .CDFputAttrzEntry "SCALETYP" .SENSORvarNum .CDF_CHAR (strlen "linear") (.chars "linear"),
    .CDFputAttrzEntry "AVG_TYPE" .SENSORvarNum .CDF_CHAR (strlen "standard") (.chars "standard"),
    .CDFputAttrzEntry "CATDESC" .SENSORvarNum .CDF_CHAR (strlen " ") (.chars " "),
    .CDFputAttrzEntry "DEPEND_0" .SENSORvarNum .CDF_CHAR (strlen (strcat (strcpy sc) "sdp_epoch_dce"))
      (.chars (tmp_string_at_call order (strcat (strcpy sc) "sdp_epoch_dce") (strcat (strcpy sc) "sdp_epoch_dce"))),
    .CDFputAttrzEntry "Calib_software" .SENSORvarNum .CDF_CHAR (strlen " ") (.chars " "),
    .CDFputAttrzEntry "Calib_input" .SENSORvarNum .CDF_CHAR (strlen " ") (.chars " "),
    .CDFputAttrzEntry "Frame" .SENSORvarNum .CDF_CHAR (strlen "vector>xyz") (.chars "vector>xyz"),
    .CDFputAttrzEntry "SI_conversion" .SENSORvarNum .CDF_CHAR (strlen " ") (.chars " "),
    .CDFputAttrzEntry "SC_id" .SENSORvarNum .CDF_CHAR (strlen scid) (.chars scid),
    .CDFputAttrzEntry "Sig_digits" .SENSORvarNum .CDF_CHAR (strlen "3") (.chars "3"),
    .CDFputAttrzEntry "DISPLAY_TYPE" .SENSORvarNum .CDF_CHAR (strlen "time_series") (.chars "time_series") ]

/-- Source lines 734-795: attribute entries of the dsl zVariable. -/
def writeSensorDslAttributes (order : ArgOrder) (sc scid : String) : List Call :=
  [ .CDFputAttrzEntry "FIELDNAM" .SENSORvarNumDSL .CDF_CHAR (strlen (strcat (strcpy sc) "sdp_dce_xyz_dsl"))
      (.chars (tmp_string_at_call order (strcat (strcpy sc) "sdp_dce_xyz_dsl") (strcat (strcpy sc) "sdp_dce_xyz_dsl"))),
    .CDFputAttrzEntry "VALIDMIN" .SENSORvarNumDSL .CDF_REAL4 1 ValidMin_6,
    .CDFputAttrzEntry "VALIDMAX" .SENSORvarNumDSL .CDF_REAL4 1 ValidMax_6,
    .CDFputAttrzEntry "LABL_PTR_1" .SENSORvarNumDSL .CDF_CHAR (strlen "DCE_LABL_1") (.chars "DCE_LABL_1"),
    .CDFputAttrzEntry "UNITS" .SENSORvarNumDSL .CDF_CHAR (strlen "mV/m") (.chars "mV/m"),
    .CDFputAttrzEntry "FORMAT" .SENSORvarNumDSL .CDF_CHAR (strlen "F8.3") (.chars "F8.3"),
    .CDFputAttrzEntry "FILLVAL" .SENSORvarNumDSL .CDF_REAL4 1 Fillval_6,
    .CDFputAttrzEntry "VAR_TYPE" .SENSORvarNumDSL .CDF_CHAR (strlen "data") (.chars "data"),
    .CDFputAttrzEntry "DICT_KEY" .SENSORvarNumDSL .CDF_CHAR (strlen "dc_electric_field>vector") (.chars "dc_electric_field>vector"),
    .CDFputAttrzEntry "SCALETYP" .SENSORvarNumDSL .CDF_CHAR (strlen "linear") (.chars "linear"),
    .CDFputAttrzEntry "AVG_TYPE" .SENSORvarNumDSL .CDF_CHAR (strlen "standard") (.chars "standard"),
    .CDFputAttrzEntry "CATDESC" .SENSORvarNumDSL .CDF_CHAR (strlen " ") (.chars " "),
    .CDFputAttrzEntry "DEPEND_0" .SENSORvarNumDSL .CDF_CHAR (strlen (strcat (strcpy sc) "sdp_epoch_dce"))
      (.chars (tmp_string_at_call order (strcat (strcpy sc) "sdp_epoch_dce") (strcat (strcpy sc) "sdp_epoch_dce"))),
    .CDFputAttrzEntry "Calib_software" .SENSORvarNumDSL .CDF_CHAR (strlen " ") (.chars " "),
    .CDFputAttrzEntry "Calib_input" .SENSORvarNumDSL .CDF_CHAR (strlen " ") (.chars " "),
    .CDFputAttrzEntry "Frame" .SENSORvarNumDSL .CDF_CHAR (strlen "vector>xyz") (.chars "vector>xyz"),
    .CDFputAttrzEntry "SI_conversion" .SENSORvarNumDSL .CDF_CHAR (strlen " ") (.chars " "),
    .CDFputAttrzEntry "SC_id" .SENSORvarNumDSL .CDF_CHAR (strlen scid) (.chars scid),
    .CDFputAttrzEntry "Sig_digits" .SENSORvarNumDSL .CDF_CHAR (strlen "3") (.chars "3"),
    .CDFputAttrzEntry "DISPLAY_TYPE" .SENSORvarNumDSL .CDF_CHAR (strlen "time_series") (.chars "time_series") ]

/-- Source lines 802-836: attribute entries of the bitmask zVariable. -/
def writeBitmaskAttributes (order : ArgOrder) (sc : String) : List Call :=
  [ .CDFputAttrzEntry "FIELDNAM" .BITMASKvarNum .CDF_CHAR (strlen (strcat (strcpy sc) "sdp_dce_bitmask"))
      (.chars (tmp_string_at_call order (strcat (strcpy sc) "sdp_dce_bitmask") (strcat (strcpy sc) "sdp_dce_bitmask"))),
    .CDFputAttrzEntry "VALIDMIN" .BITMASKvarNum .CDF_UINT4 1 ValidMin_7,
    .CDFputAttrzEntry "VALIDMAX" .BITMASKvarNum .CDF_UINT4 1 ValidMax_7,
    .CDFputAttrzEntry "LABLAXIS" .BITMASKvarNum .CDF_CHAR (strlen (strcat (strcpy sc) "sdp_dce_bitmask"))
      (.chars (tmp_string_at_call order (strcat (strcpy sc) "sdp_dce_bitmask") (strcat (strcpy sc) "sdp_dce_bitmask"))),
    .CDFputAttrzEntry "UNITS" .BITMASKvarNum .CDF_CHAR (strlen "Bitmask") (.chars "Bitmask"),
    .CDFputAttrzEntry "FORMAT" .BITMASKvarNum .CDF_CHAR (strlen "I7") (.chars "I7"),
    .CDFputAttrzEntry "FILLVAL" .BITMASKvarNum .CDF_UINT4 1 Fillval_7,
    .CDFputAttrzEntry "VAR_TYPE" .BITMASKvarNum .CDF_CHAR (strlen "support_data") (.chars "support_data"),
    .CDFputAttrzEntry "SCALETYP" .BITMASKvarNum .CDF_CHAR (strlen "linear") (.chars "linear"),
    .CDFputAttrzEntry "CATDESC" .BITMASKvarNum .CDF_CHAR (strlen "Bitmask") (.chars "Bitmask"),
    .CDFputAttrzEntry "DEPEND_0" .BITMASKvarNum .CDF_CHAR (strlen (strcat (strcpy sc) "sdp_epoch_dce"))
      (.chars (tmp_string_at_call order (strcat (strcpy sc) "sdp_epoch_dce") (strcat (strcpy sc) "sdp_epoch_dce"))) ]

/-- The string constant `buffer[0]` written to the label zVariable (source line 843). -/
def buffer_0 : String := "DCVXDCVYDCVZ"

/-- Source lines 845-860: the data of the five zVariables. -/
def writeData (p2 p3 p4 p5 : mxArray) : List Call :=
  [ .CDFputzVarAllRecordsByVarID .EPOCHvarNum (mxGetM p2) (.mxData (mxGetData p2)),
    .CDFputzVarAllRecordsByVarID .LABELvarNum 1 (.chars buffer_0),
    .CDFputzVarAllRecordsByVarID .SENSORvarNum (mxGetN p3) (.mxData (mxGetData p3)),
    .CDFputzVarAllRecordsByVarID .SENSORvarNumDSL (mxGetN p4) (.mxData (mxGetData p4)),
    .CDFputzVarAllRecordsByVarID .BITMASKvarNum (mxGetM p5) (.mxData (mxGetData p5)) ]

/-- Source lines 193-866: every library call of `mexFunction`, in program order, for a
filename and spacecraft id that passed the input checks. -/
def cdfCalls (order : ArgOrder) (filename : String) (sc_id : Int)
    (p2 p3 p4 p5 : mxArray) : List Call :=
  let scid := fmt_d sc_id
  let sc := "mms" ++ fmt_d sc_id ++ "_"
  let tmp := "MMS" ++ fmt_d sc_id ++ ">MMS Satellite Number " ++ fmt_d sc_id
  [ .CDFcreateCDF filename,
    .CDFsetEncoding .NETWORK_ENCODING,
    .CDFsetMajority .COLUMN_MAJOR ]
  ++ createzVars sc
  ++ createGlobalAttributes
  ++ writeGlobalAttributes order filename sc tmp
  ++ createVariableAttributes
  ++ writeEpochAttributes order sc scid
  ++ writeLabelAttributes
  ++ writeSensorAttributes order sc scid
  ++ writeSensorDslAttributes order sc scid
  ++ writeBitmaskAttributes order sc
  ++ writeData p2 p3 p4 p5
  ++ [ .CDFcloseCDF ]

/-- Identifier of every error the input checks raise. -/
def inputargId : String := "MATLAB:irfu_cdfwrite:inputarg"

/-- Source lines 68-69. -/
def argCountError : MexError :=
  ⟨inputargId, "Six input arguments required. 'Filename', 'SC_id', 'Epoch', 'mmsX_sdp_dce_xyz_pgse', 'mmsX_spd_dce_xyz_dsl', 'bitmask'"⟩

/-- Source line 88. -/
def filenameClassError (p0 : mxArray) : MexError :=
  ⟨inputargId, "First input was identified as ClassID: " ++ mxGetClassName p0 ++ "\n"⟩

/-- Source line 97. -/
def scIdRangeError (sc_id : Int) : MexError :=
  ⟨inputargId, "SC id incorrectly found as: " ++ fmt_d sc_id ++ ".\nAllowed values are only 1, 2, 3 and 4."⟩

/-- Source line 102. -/
def scIdClassError (p1 : mxArray) : MexError :=
  ⟨inputargId, "Second input was identified as ClassID: " ++ mxGetClassName p1 ++ "\nShould be only be int8()."⟩

/-- The error the status handler raises for status -2013. -/
def fileExistsError : MexError :=
  ⟨"MATLAB:irfu_cdfwrite:filename_output:exists",
    "A file with requested filename already exists in the output dir DROPBOX_ROOT/. Can occur if rerun before other scripts have moved it to its final destination."⟩

/-- An error raised before any library call. -/
def raiseEarly (e : MexError) : Outcome := ⟨some e, [], []⟩

/-- The MEX gateway (source lines 56-871); `prhs` are the right-hand-side arguments and
`nrhs` is their number. -/
def mexFunction (order : ArgOrder) (lib : CDFlib) (prhs : List mxArray) : Outcome :=
  match prhs with
  | [p0, p1, p2, p3, p4, p5] =>
    if mxGetClassID p0 = 4 then
      let filename := mxArrayToString p0
      if mxGetClassID p1 = 8 then
        let sc_id := toInt8 (mxGetScalar p1)
        if sc_id > 4 ∨ sc_id < 1 then
          raiseEarly (scIdRangeError sc_id)
        else
          runCalls lib (cdfCalls order filename sc_id p2 p3 p4 p5) [] []
      else
        raiseEarly (scIdClassError p1)
    else
      raiseEarly (filenameClassError p0)
  | _ => raiseEarly argCountError

/-! ## Reading a run -/

/-- The statuses the library returns when the calls are issued one after another,
starting after the calls `issued`. -/
def statusesFrom (lib : CDFlib) : List Call → List Call → List CDFstatus
  | [], _ => []
  | c :: rest, issued => lib issued c :: statusesFrom lib rest (issued ++ [c])

/-- The lines the status handler prints for a sequence of statuses it returns from: one
line for each status other than `CDF_OK`, showing the status as the `int` the handler
received. -/
def printedFor (statuses : List CDFstatus) : List String :=
  (statuses.filter (fun s => s ≠ CDF_OK)).map
    (fun s => "Error found as: " ++ fmt_d (toInt32 s) ++ "\n")

/-- The zVariable declarations among the calls. -/
def zVarDecls (cs : List Call) : List Call :=
  cs.filter (fun c => match c with
    | .CDFcreatezVar _ _ _ _ _ _ _ _ => true
    | _ => false)

/-- The entries written into the attribute of the given name (global or variable scope). -/
def attrEntries (attrName : String) (cs : List Call) : List Call :=
  cs.filter (fun c => match c with
    | .CDFputAttrgEntry a _ _ _ _ => a == attrName
    | .CDFputAttrzEntry a _ _ _ _ => a == attrName
    | _ => false)

/-- The data writes to one zVariable: record count and buffer of each. -/
def dataWrites (v : VarNum) (cs : List Call) : List (Nat × Buffer) :=
  cs.filterMap (fun c => match c with
    | .CDFputzVarAllRecordsByVarID w numRecs buffer => if w = v then some (numRecs, buffer) else none
    | _ => none)

/-- The data type a zVariable was declared with. -/
def zVarType (v : VarNum) (cs : List Call) : Option CDFdataType :=
  cs.findSome? (fun c => match c with
    | .CDFcreatezVar _ dataType _ _ _ _ _ w => if w = v then some dataType else none
    | _ => none)

/-- Values in one record of a zVariable declared with these arguments: `numElements`
values (the characters of one string, for a character type) for each element of its
`numDims` dimensions; dimension sizes beyond `numDims` are not used by the library. -/
def recordValues (numElements numDims : Nat) (dimSizes : List Nat) : Nat :=
  numElements * (dimSizes.take numDims).prod

/-- Values per record of a zVariable, from its declaration among the calls. -/
def zVarRecordValues (v : VarNum) (cs : List Call) : Option Nat :=
  cs.findSome? (fun c => match c with
    | .CDFcreatezVar _ _ numElements numDims dimSizes _ _ w =>
        if w = v then some (recordValues numElements numDims dimSizes) else none
    | _ => none)

/-- The records `CDFputzVarAllRecordsByVarID` stores: `numRecs` consecutive groups of
`recSize` values taken from the buffer in order, `recSize` being the size of a record as
the zVariable was declared (the note at source lines 848-849 records this for the label:
one record is read as the 3x4 characters declared). The result is `none` when the buffer
holds fewer values than that (the library would read past its end). -/
def recordsRead {α : Type} (recSize : Nat) : Nat → List α → Option (List (List α))
  | 0, _ => some []
  | n + 1, buf =>
    if recSize ≤ buf.length then
      (recordsRead recSize n (buf.drop recSize)).map (fun recs => buf.take recSize :: recs)
    else none

/-! ## The scenario of the specification

`filename = "test1"`, spacecraft 2, three epochs, three rows per vector, three bitmasks.
The vectors are passed flipped (3-by-N), as the source header asks. -/

def exFilename : mxArray := ⟨4, "char", 1, 5, [116, 101, 115, 116, 49]⟩
def exScId (k : Int) : mxArray := ⟨8, "int8", 1, 1, [k]⟩
def exEpoch : mxArray := ⟨14, "int64", 3, 1, [100, 200, 300]⟩
def exVectorA : mxArray := ⟨7, "single", 3, 3,
  [0x3F800000, 0x40000000, 0x40400000, 0x3F800000, 0x40000000, 0x40400000,
   0x3F800000, 0x40000000, 0x40400000]⟩
def exVectorB : mxArray := ⟨7, "single", 3, 3,
  [0x40800000, 0x40A00000, 0x40C00000, 0x40800000, 0x40A00000, 0x40C00000,
   0x40800000, 0x40A00000, 0x40C00000]⟩
def exBitmask : mxArray := ⟨13, "uint32", 3, 1, [0, 1, 0]⟩

/-- The same three epochs as a 1-by-3 row, the shape of the MATLAB value `[100,200,300]`. -/
def exEpochRow : mxArray := ⟨14, "int64", 1, 3, [100, 200, 300]⟩

/-- The same three bitmasks as a 1-by-3 row. -/
def exBitmaskRow : mxArray := ⟨13, "uint32", 1, 3, [0, 1, 0]⟩

/-- A library for which every call succeeds. -/
def libAllOk : CDFlib := fun _ _ => CDF_OK

/-- A library whose create step fails with a status other than -2013 and whose other
calls succeed. -/
def libCreateFails : CDFlib := fun _ c =>
  match c with
  | .CDFcreateCDF _ => -2065
  | _ => CDF_OK

/-- A library that finds the file already there: the create step returns -2013. -/
def libFileExists : CDFlib := fun _ c =>
  match c with
  | .CDFcreateCDF _ => -2013
  | _ => CDF_OK

/-- A library whose create step succeeds and which answers the fourth call of an
invocation, whatever that call is, with -2013; every other call succeeds. -/
def libExistsAtFourthCall : CDFlib := fun issued _ =>
  if issued.length = 3 then -2013 else CDF_OK

/-- The shape of each declared zVariable, without its name: data type, number of
elements, the sizes of its `numDims` dimensions, record variance, and the variances of
those dimensions. -/
def zVarShapes (cs : List Call) :
    List (CDFdataType × Nat × List Nat × CDFvariance × List CDFvariance) :=
  cs.filterMap (fun c => match c with
    | .CDFcreatezVar _ dataType numElements numDims dimSizes recVary dimVarys _ =>
        some (dataType, numElements, dimSizes.take numDims, recVary, dimVarys.take numDims)
    | _ => none)

/-- The names of the declared zVariables, in the order of declaration. -/
def zVarNames (cs : List Call) : List String :=
  cs.filterMap (fun c => match c with
    | .CDFcreatezVar varName _ _ _ _ _ _ _ => some varName
    | _ => none)

/-! ## The shape of a call

What a call is, apart from the values it carries: the library function, the attribute
(name and scope) and the zVariable it is about. -/

inductive CallShape where
  | create
  | setEncoding
  | setMajority
  | zVar (varNum : VarNum)
  | attrCreate (attrName : String) (scope : CDFscope)
  | gEntry (attrName : String)
  | zEntry (attrName : String) (varNum : VarNum)
  | write (varNum : VarNum)
  | close
deriving DecidableEq

def Call.shape : Call → CallShape
  | .CDFcreateCDF _ => .create
  | .CDFsetEncoding _ => .setEncoding
  | .CDFsetMajority _ => .setMajority
  | .CDFcreatezVar _ _ _ _ _ _ _ varNum => .zVar varNum
  | .CDFattrCreate attrName scope => .attrCreate attrName scope
  | .CDFputAttrgEntry attrName _ _ _ _ => .gEntry attrName
  | .CDFputAttrzEntry attrName varNum _ _ _ => .zEntry attrName varNum
  | .CDFputzVarAllRecordsByVarID varNum _ _ => .write varNum
  | .CDFcloseCDF => .close

/-- An attribute declaration of the given scope. -/
def CallShape.isAttrCreateIn (scope : CDFscope) : CallShape → Bool
  | .attrCreate _ s => decide (s = scope)
  | _ => false

/-- An attribute declaration of either scope. -/
def CallShape.isAttrCreate : CallShape → Bool
  | .attrCreate _ _ => true
  | _ => false

/-- An entry written into a global attribute. -/
def CallShape.isGlobalEntry : CallShape → Bool
  | .gEntry _ => true
  | _ => false

/-- An entry written into a variable attribute. -/
def CallShape.isVarEntry : CallShape → Bool
  | .zEntry _ _ => true
  | _ => false

/-- An attribute entry of either scope. -/
def CallShape.isEntry (c : CallShape) : Bool := c.isGlobalEntry || c.isVarEntry

/-- Everything the call refers to was declared by one of the earlier calls: a global
entry names an attribute created with global scope, a variable entry names an attribute
created with variable scope and a zVariable that was created, a data write names a
zVariable that was created. -/
def refsDeclared (earlier : List CallShape) : CallShape → Prop
  | .gEntry attrName => .attrCreate attrName .GLOBAL_SCOPE ∈ earlier
  | .zEntry attrName varNum =>
      .attrCreate attrName .VARIABLE_SCOPE ∈ earlier ∧ .zVar varNum ∈ earlier
  | .write varNum => .zVar varNum ∈ earlier
  | _ => True

instance refsDeclared.decidable (earlier : List CallShape) :
    (c : CallShape) → Decidable (refsDeclared earlier c)
  | .gEntry attrName =>
      inferInstanceAs (Decidable (CallShape.attrCreate attrName .GLOBAL_SCOPE ∈ earlier))
  | .zEntry attrName varNum =>
      inferInstanceAs (Decidable (CallShape.attrCreate attrName .VARIABLE_SCOPE ∈ earlier ∧
        CallShape.zVar varNum ∈ earlier))
  | .write varNum => inferInstanceAs (Decidable (CallShape.zVar varNum ∈ earlier))
  | .create => inferInstanceAs (Decidable True)
  | .setEncoding => inferInstanceAs (Decidable True)
  | .setMajority => inferInstanceAs (Decidable True)
  | .zVar _ => inferInstanceAs (Decidable True)
  | .attrCreate _ _ => inferInstanceAs (Decidable True)
  | .close => inferInstanceAs (Decidable True)

/-- Every call of `rest` refers only to what `earlier` and the calls of `rest` before
it declared. -/
def allRefsDeclared : List CallShape → List CallShape → Bool
  | _, [] => true
  | earlier, c :: rest => decide (refsDeclared earlier c) && allRefsDeclared (earlier ++ [c]) rest

/-- The entries written into one attribute of one zVariable: type, count and value. -/
def zEntries (attrName : String) (v : VarNum) (cs : List Call) :
    List (CDFdataType × Nat × AttrValue) :=
  cs.filterMap (fun c => match c with
    | .CDFputAttrzEntry a w dataType numElements value =>
        if a = attrName ∧ w = v then some (dataType, numElements, value) else none
    | _ => none)

/-- The name under which a zVariable was created. -/
def zVarName (v : VarNum) (cs : List Call) : Option String :=
  cs.findSome? (fun c => match c with
    | .CDFcreatezVar varName _ _ _ _ _ _ w => if w = v then some varName else none
    | _ => none)

/-- The number of dimensions and the dimension sizes a zVariable was declared with. -/
def zVarDims (v : VarNum) (cs : List Call) : Option (Nat × List Nat) :=
  cs.findSome? (fun c => match c with
    | .CDFcreatezVar _ _ _ numDims dimSizes _ _ w =>
        if w = v then some (numDims, dimSizes) else none
    | _ => none)

/-- The same array seen as of another class: class id and name replaced, dimensions and
storage untouched. -/
def mxArray.withClass (a : mxArray) (classID : Nat) (className : String) : mxArray :=
  { a with classID := classID, className := className }

/-- The shapes of the call sequence, taken at the scenario of the specification. -/
def cdfShapes : List CallShape :=
  (cdfCalls .lengthFirst "test1" 2 exEpoch exVectorA exVectorB exBitmask).map Call.shape

/-- The three epochs as a column of class double (class id 6), stored as the bit
patterns of 100.0, 200.0 and 300.0. -/
def exEpochDouble : mxArray :=
  ⟨6, "double", 3, 1, [0x4059000000000000, 0x4069000000000000, 0x4072C00000000000]⟩

/-- Two rows of vector data, flipped (3-by-2). -/
def exVectorTwoRows : mxArray := ⟨7, "single", 3, 2,
  [0x3F800000, 0x40000000, 0x40400000, 0x3F800000, 0x40000000, 0x40400000]⟩

/-- Five bitmask values as a column. -/
def exBitmaskFive : mxArray := ⟨13, "uint32", 5, 1, [0, 1, 0, 1, 0]⟩

/-- A library that answers only the create step with -2013, and only when a file of
that name is among `existing`; every other call succeeds. -/
def libWithFiles (existing : List String) : CDFlib := fun _ c =>
  match c with
  | .CDFcreateCDF cdfName => if cdfName ∈ existing then -2013 else CDF_OK
  | _ => CDF_OK

/-! ## Required attributes, text entries, fixed buffers and declared names -/

/-- The global attributes whose declaration the source marks with the comment `REQ.`
(source lines 251-318). -/
def requiredGlobalAttributes : List String :=
  [ "Project", "Discipline", "Source_name", "Data_type", "Descriptor", "Data_version",
    "Logical_file_id", "Logical_source", "Logical_source_description", "Mission_group",
    "PI_name", "PI_affiliation", "Generation_date", "Instrument_type", "LINK_TITLE",
    "HTTP_LINK", "LINK_TEXT", "TEXT", "MODS" ]

/-- The names of the attributes declared in the given scope, in the order of
declaration. -/
def attrNamesDeclaredIn (scope : CDFscope) (cs : List Call) : List String :=
  cs.filterMap (fun c => match c with
    | .CDFattrCreate attrName s => if s = scope then some attrName else none
    | _ => none)

/-- The names of all attributes declared, of either scope, in the order of declaration. -/
def attrNamesDeclared (cs : List Call) : List String :=
  cs.filterMap (fun c => match c with
    | .CDFattrCreate attrName _ => some attrName
    | _ => none)

/-- The text an entry of type CDF_CHAR stores: the first `numElements` characters found at
the pointer handed to the library. -/
def storedText (numElements : Nat) (s : String) : String :=
  String.mk (s.toList.take numElements)

/-- The element count and the text handed over by an attribute entry of text; `none` for
every other call. -/
def Call.textEntry : Call → Option (Nat × String)
  | .CDFputAttrgEntry _ _ _ numElements value =>
    match value with
    | .chars s => some (numElements, s)
    | _ => none
  | .CDFputAttrzEntry _ _ _ numElements value =>
    match value with
    | .chars s => some (numElements, s)
    | _ => none
  | _ => none

/-- For an attribute entry of text, the element count handed over is the length of the
text handed over; calls that are no text entry pass. -/
def Call.textCountMatches (c : Call) : Bool :=
  match c.textEntry with
  | some (numElements, s) => decide (numElements = strlen s)
  | none => true

/-- Size of `char sc[6]` (source line 212). -/
def sc_size : Nat := 6

/-- Size of `char scid[2]` (source line 213). -/
def scid_size : Nat := 2

/-- Size of `char tmp_string[250]` (source line 215). -/
def tmp_string_size : Nat := 250

/-- Size of `char tmp[250]` (source line 341). -/
def tmp_size : Nat := 250

/-- The text `sprintf (scid, "%d", sc_id)` writes (source line 213). -/
def sprintf_scid (sc_id : Int) : String := fmt_d sc_id

/-- The text `sprintf (sc, "mms%d_", sc_id)` writes (source line 214). -/
def sprintf_sc (sc_id : Int) : String := "mms" ++ fmt_d sc_id ++ "_"

/-- The text `sprintf (tmp, "MMS%d>MMS Satellite Number %d", sc_id, sc_id)` writes (source
line 342). -/
def sprintf_tmp (sc_id : Int) : String :=
  "MMS" ++ fmt_d sc_id ++ ">MMS Satellite Number " ++ fmt_d sc_id

/-- The string constants the source appends to `sc` in `tmp_string`, one for each distinct
`strcat (strcpy (tmp_string, sc), ...)` of the code that is not commented out. -/
def tmp_string_suffixes : List String :=
  [ "sdp_epoch_dce", "sdp_dce_xyz_pgse", "sdp_dce_xyz_dsl", "sdp_dce_bitmask", "sdp_dce",
    "sdp_16c_l1a_dce" ]

/-- A text fits a character array together with its terminating NUL (the texts here are
ASCII, one byte per character). -/
def fitsBuffer (text : String) (size : Nat) : Prop := text.length + 1 ≤ size

instance (text : String) (size : Nat) : Decidable (fitsBuffer text size) :=
  inferInstanceAs (Decidable (text.length + 1 ≤ size))

/-- Vector data passed without flipping: 2 rows of 3 floats as a 2-by-3 array. -/
def exVectorUnflipped : mxArray := ⟨7, "single", 2, 3,
  [0x3F800000, 0x3F800000, 0x40000000, 0x40000000, 0x40400000, 0x40400000]⟩

/-! ## The status handler and the run of a call sequence -/

theorem toInt32_CDF_OK : toInt32 CDF_OK = 0 := by decide

theorem UserStatusHandler_exists (s : CDFstatus) (h : toInt32 s = -2013) :
    UserStatusHandler s = .error fileExistsError := by
  simp [UserStatusHandler, h, fileExistsError]

theorem UserStatusHandler_other (s : CDFstatus) (h : toInt32 s ≠ -2013) :
    UserStatusHandler s = .ok ("Error found as: " ++ fmt_d (toInt32 s) ++ "\n") := by
  simp [UserStatusHandler, h]

theorem runCalls_cons_ok (lib : CDFlib) (c : Call) (rest issued : List Call)
    (printed : List String) (h : lib issued c = CDF_OK) :
    runCalls lib (c :: rest) issued printed = runCalls lib rest (issued ++ [c]) printed := by
  simp only [runCalls, h, ne_eq, not_true_eq_false, if_false]

theorem runCalls_cons_exists (lib : CDFlib) (c : Call) (rest issued : List Call)
    (printed : List String) (h : toInt32 (lib issued c) = -2013) :
    runCalls lib (c :: rest) issued printed
      = ⟨some fileExistsError, issued ++ [c], printed⟩ := by
  have hne : lib issued c ≠ CDF_OK := by
    intro hok
    rw [hok, toInt32_CDF_OK] at h
    exact absurd h (by decide)
  simp only [runCalls, ne_eq, hne, not_false_eq_true, if_true, UserStatusHandler_exists _ h]

theorem runCalls_cons_other (lib : CDFlib) (c : Call) (rest issued : List Call)
    (printed : List String) (h : lib issued c ≠ CDF_OK)
    (hex : toInt32 (lib issued c) ≠ -2013) :
    runCalls lib (c :: rest) issued printed
      = runCalls lib rest (issued ++ [c])
          (printed ++ ["Error found as: " ++ fmt_d (toInt32 (lib issued c)) ++ "\n"]) := by
  simp only [runCalls, ne_eq, h, not_false_eq_true, if_true, UserStatusHandler_other _ hex]

theorem printedFor_cons_ok (ss : List CDFstatus) : printedFor (CDF_OK :: ss) = printedFor ss := by
  simp [printedFor]

theorem printedFor_cons_ne (s : CDFstatus) (ss : List CDFstatus) (h : s ≠ CDF_OK) :
    printedFor (s :: ss)
      = ("Error found as: " ++ fmt_d (toInt32 s) ++ "\n") :: printedFor ss := by
  simp [printedFor, h]

/-- When no call is answered with a status the handler receives as -2013, the whole
sequence is issued and the run ends without error, each other non-success status having
been printed. -/
theorem runCalls_complete (lib : CDFlib) (prog : List Call) :
    ∀ (issued : List Call) (printed : List String),
      (-2013 : Int) ∉ (statusesFrom lib prog issued).map toInt32 →
      runCalls lib prog issued printed
        = ⟨none, issued ++ prog, printed ++ printedFor (statusesFrom lib prog issued)⟩ := by
  induction prog with
  | nil => intro issued printed _; simp [runCalls, statusesFrom, printedFor]
  | cons c rest ih =>
    intro issued printed h
    simp only [statusesFrom, List.map_cons, List.mem_cons, not_or] at h
    obtain ⟨hc, hrest⟩ := h
    have hc2 : toInt32 (lib issued c) ≠ -2013 := fun e => hc e.symm
    by_cases hok : lib issued c = CDF_OK
    · rw [runCalls_cons_ok _ _ _ _ _ hok, ih (issued ++ [c]) printed hrest]
      simp only [statusesFrom, hok, printedFor_cons_ok]
      simp
    · rw [runCalls_cons_other _ _ _ _ _ hok hc2, ih (issued ++ [c]) _ hrest]
      simp only [statusesFrom, printedFor_cons_ne _ _ hok]
      simp

/-- When call number `k` is the first one answered with a status the handler receives as
-2013, the run ends there with the file-exists error: the calls up to and including it
were issued, no later one. -/
theorem runCalls_abort (lib : CDFlib) (prog : List Call) :
    ∀ (k : Nat) (issued : List Call) (printed : List String),
      (-2013 : Int) ∉ ((statusesFrom lib prog issued).take k).map toInt32 →
      (statusesFrom lib prog issued)[k]?.map toInt32 = some (-2013) →
      runCalls lib prog issued printed
        = ⟨some fileExistsError, issued ++ prog.take (k + 1),
            printed ++ printedFor ((statusesFrom lib prog issued).take k)⟩ := by
  induction prog with
  | nil => intro k issued printed _ h; simp [statusesFrom] at h
  | cons c rest ih =>
    intro k issued printed h1 h2
    cases k with
    | zero =>
      simp only [statusesFrom, List.getElem?_cons_zero, Option.map_some',
        Option.some.injEq] at h2
      rw [runCalls_cons_exists _ _ _ _ _ h2]
      simp [printedFor]
    | succ k =>
      simp only [statusesFrom, List.take_succ_cons, List.map_cons, List.mem_cons,
        not_or] at h1
      simp only [statusesFrom, List.getElem?_cons_succ] at h2
      obtain ⟨hc, hrest⟩ := h1
      have hc2 : toInt32 (lib issued c) ≠ -2013 := fun e => hc e.symm
      by_cases hok : lib issued c = CDF_OK
      · rw [runCalls_cons_ok _ _ _ _ _ hok, ih k (issued ++ [c]) printed hrest h2]
        simp only [statusesFrom, hok, List.take_succ_cons, printedFor_cons_ok]
        simp
      · rw [runCalls_cons_other _ _ _ _ _ hok hc2, ih k (issued ++ [c]) _ hrest h2]
        simp only [statusesFrom, List.take_succ_cons, printedFor_cons_ne _ _ hok]
        simp

/-- A run that ends without error issued its whole sequence. -/
theorem runCalls_calls_of_no_error (lib : CDFlib) (prog : List Call) :
    ∀ (issued : List Call) (printed : List String),
      (runCalls lib prog issued printed).error = none →
      (runCalls lib prog issued printed).calls = issued ++ prog := by
  induction prog with
  | nil => intro issued printed _; simp [runCalls]
  | cons c rest ih =>
    intro issued printed h
    by_cases hok : lib issued c = CDF_OK
    · rw [runCalls_cons_ok _ _ _ _ _ hok] at h ⊢
      rw [ih _ _ h]; simp
    · by_cases hex : toInt32 (lib issued c) = -2013
      · rw [runCalls_cons_exists _ _ _ _ _ hex] at h
        simp at h
      · rw [runCalls_cons_other _ _ _ _ _ hok hex] at h ⊢
        rw [ih _ _ h]; simp

/-- The only error a run of library calls can end in is the file-exists error. -/
theorem runCalls_error (lib : CDFlib) (prog : List Call) :
    ∀ (issued : List Call) (printed : List String),
      (runCalls lib prog issued printed).error = none ∨
      (runCalls lib prog issued printed).error = some fileExistsError := by
  induction prog with
  | nil => intro issued printed; simp [runCalls]
  | cons c rest ih =>
    intro issued printed
    by_cases hok : lib issued c = CDF_OK
    · rw [runCalls_cons_ok _ _ _ _ _ hok]
      exact ih _ _
    · by_cases hex : toInt32 (lib issued c) = -2013
      · right; rw [runCalls_cons_exists _ _ _ _ _ hex]
      · rw [runCalls_cons_other _ _ _ _ _ hok hex]
        exact ih _ _

/-- A run over a non-empty sequence issues at least its first call. -/
theorem runCalls_calls_ne_nil (lib : CDFlib) (c : Call) (rest : List Call) :
    (runCalls lib (c :: rest) [] []).calls ≠ [] := by
  have key : ∀ (prog issued : List Call) (printed : List String), issued ≠ [] →
      (runCalls lib prog issued printed).calls ≠ [] := by
    intro prog
    induction prog with
    | nil => intro issued printed h; simpa [runCalls] using h
    | cons d more ih =>
      intro issued printed h
      by_cases hok : lib issued d = CDF_OK
      · rw [runCalls_cons_ok _ _ _ _ _ hok]; exact ih _ _ (by simp)
      · by_cases hex : toInt32 (lib issued d) = -2013
        · rw [runCalls_cons_exists _ _ _ _ _ hex]; simp
        · rw [runCalls_cons_other _ _ _ _ _ hok hex]; exact ih _ _ (by simp)
  by_cases hok : lib [] c = CDF_OK
  · rw [runCalls_cons_ok _ _ _ _ _ hok]; exact key _ _ _ (by simp)
  · by_cases hex : toInt32 (lib [] c) = -2013
    · rw [runCalls_cons_exists _ _ _ _ _ hex]; simp
    · rw [runCalls_cons_other _ _ _ _ _ hok hex]; exact key _ _ _ (by simp)

/-! ## The input checks -/

theorem toInt8_of_range (v : Int) (h1 : -128 ≤ v) (h2 : v ≤ 127) : toInt8 v = v := by
  unfold toInt8
  norm_num
  omega

/-- With six arguments that pass the checks, the gateway runs its call sequence. -/
theorem mexFunction_valid (order : ArgOrder) (lib : CDFlib) (p0 p1 p2 p3 p4 p5 : mxArray)
    (h0 : mxGetClassID p0 = 4) (h1 : mxGetClassID p1 = 8)
    (hlo : 1 ≤ mxGetScalar p1) (hhi : mxGetScalar p1 ≤ 4) :
    mexFunction order lib [p0, p1, p2, p3, p4, p5]
      = runCalls lib (cdfCalls order (mxArrayToString p0) (mxGetScalar p1) p2 p3 p4 p5) [] [] := by
  have ht : toInt8 (mxGetScalar p1) = mxGetScalar p1 :=
    toInt8_of_range _ (by omega) (by omega)
  have hr : ¬ (mxGetScalar p1 > 4 ∨ mxGetScalar p1 < 1) := by omega
  simp only [mexFunction, h0, h1, ht, hr, if_true, if_false]

theorem mexFunction_of_length_ne (order : ArgOrder) (lib : CDFlib) (prhs : List mxArray)
    (h : prhs.length ≠ 6) : mexFunction order lib prhs = raiseEarly argCountError := by
  rcases prhs with _ | ⟨a, _ | ⟨b, _ | ⟨c, _ | ⟨d, _ | ⟨e, _ | ⟨f, _ | ⟨g, t⟩⟩⟩⟩⟩⟩⟩ <;>
    simp [mexFunction] at h ⊢

/-- An invocation that ends without error had arguments passing every check, and issued
the whole call sequence. -/
theorem mexFunction_of_no_error (order : ArgOrder) (lib : CDFlib) (p0 p1 p2 p3 p4 p5 : mxArray)
    (h : (mexFunction order lib [p0, p1, p2, p3, p4, p5]).error = none) :
    mxGetClassID p0 = 4 ∧ mxGetClassID p1 = 8 ∧
    1 ≤ toInt8 (mxGetScalar p1) ∧ toInt8 (mxGetScalar p1) ≤ 4 ∧
    (mexFunction order lib [p0, p1, p2, p3, p4, p5]).calls
      = cdfCalls order (mxArrayToString p0) (toInt8 (mxGetScalar p1)) p2 p3 p4 p5 := by
  by_cases h0 : mxGetClassID p0 = 4
  · by_cases h1 : mxGetClassID p1 = 8
    · by_cases hr : toInt8 (mxGetScalar p1) > 4 ∨ toInt8 (mxGetScalar p1) < 1
      · simp [mexFunction, h0, h1, hr, raiseEarly] at h
      · simp only [mexFunction, h0, h1, hr, if_true, if_false] at h ⊢
        refine ⟨trivial, trivial, by omega, by omega, ?_⟩
        rw [runCalls_calls_of_no_error lib _ [] [] h]; simp
    · simp [mexFunction, h0, h1, raiseEarly] at h
  · simp [mexFunction, h0, raiseEarly] at h

theorem cdfCalls_eq_cons (order : ArgOrder) (filename : String) (sc_id : Int)
    (p2 p3 p4 p5 : mxArray) :
    ∃ rest, cdfCalls order filename sc_id p2 p3 p4 p5 = .CDFcreateCDF filename :: rest :=
  ⟨_, rfl⟩

/-- Whatever the arguments and the library, an error raised while no library call has
been issued is one of the four input errors; they share the identifier `inputargId`. -/
theorem mexFunction_early_error (order : ArgOrder) (lib : CDFlib) (prhs : List mxArray)
    (e : MexError) (he : (mexFunction order lib prhs).error = some e)
    (hc : (mexFunction order lib prhs).calls = []) : e.identifier = inputargId := by
  by_cases hlen : prhs.length = 6
  · rcases prhs with _ | ⟨p0, _ | ⟨p1, _ | ⟨p2, _ | ⟨p3, _ | ⟨p4, _ | ⟨p5, _ | ⟨g, t⟩⟩⟩⟩⟩⟩⟩ <;>
      simp at hlen
    by_cases h0 : mxGetClassID p0 = 4
    · by_cases h1 : mxGetClassID p1 = 8
      · by_cases hr : toInt8 (mxGetScalar p1) > 4 ∨ toInt8 (mxGetScalar p1) < 1
        · simp only [mexFunction, h0, h1, hr, if_true, raiseEarly, Option.some.injEq] at he
          rw [← he]; rfl
        · simp only [mexFunction, h0, h1, hr, if_true, if_false] at hc
          obtain ⟨rest, hrest⟩ :=
            cdfCalls_eq_cons order (mxArrayToString p0) (toInt8 (mxGetScalar p1)) p2 p3 p4 p5
          rw [hrest] at hc
          exact absurd hc (runCalls_calls_ne_nil lib _ rest)
      · simp only [mexFunction, h0, h1, if_true, if_false, raiseEarly, Option.some.injEq] at he
        rw [← he]; rfl
    · simp only [mexFunction, h0, if_false, raiseEarly, Option.some.injEq] at he
      rw [← he]; rfl
  · rw [mexFunction_of_length_ne order lib prhs hlen] at he
    simp only [raiseEarly, Option.some.injEq] at he
    rw [← he]; rfl

/-! ## Error handling (claims C1 to C4) -/

set_option maxRecDepth 100000

/-- C1 (as stated, refuted): in the scenario of the specification the create step returns
the non-success status -2065; the invocation nevertheless ends without error, the status
is only printed, and all 178 library calls of the sequence are issued. -/
theorem create_failure_does_not_end_invocation :
    libCreateFails [] (.CDFcreateCDF "test1") ≠ CDF_OK ∧
    (mexFunction .lengthFirst libCreateFails
        [exFilename, exScId 2, exEpoch, exVectorA, exVectorB, exBitmask]).error = none ∧
    (mexFunction .lengthFirst libCreateFails
        [exFilename, exScId 2, exEpoch, exVectorA, exVectorB, exBitmask]).calls
      = cdfCalls .lengthFirst "test1" 2 exEpoch exVectorA exVectorB exBitmask ∧
    (mexFunction .lengthFirst libCreateFails
        [exFilename, exScId 2, exEpoch, exVectorA, exVectorB, exBitmask]).calls.length = 178 ∧
    (mexFunction .lengthFirst libCreateFails
        [exFilename, exScId 2, exEpoch, exVectorA, exVectorB, exBitmask]).printed
      = ["Error found as: -2065\n"] := by
  decide

/-- C1 (amended): for arguments that pass the input checks, only a status that the handler
receives as -2013 ends the invocation; the handler receives the `long` status of the call
converted to `int`. If call number `k` of the sequence is the first one answered with
such a status, the invocation ends in the file-exists error having issued the calls up to
and including that one and none of the later calls. Every other non-success status is
printed by the handler, as the `int` it received, and the sequence goes on: if no call is
answered with a status received as -2013, the invocation ends without error having issued
the whole sequence. -/
theorem only_file_exists_status_ends_invocation (order : ArgOrder) (lib : CDFlib)
    (p0 p1 p2 p3 p4 p5 : mxArray)
    (h0 : mxGetClassID p0 = 4) (h1 : mxGetClassID p1 = 8)
    (hlo : 1 ≤ mxGetScalar p1) (hhi : mxGetScalar p1 ≤ 4) :
    (∀ k : Nat,
      (-2013 : Int) ∉ ((statusesFrom lib
          (cdfCalls order (mxArrayToString p0) (mxGetScalar p1) p2 p3 p4 p5) []).take k).map
            toInt32 →
      (statusesFrom lib
          (cdfCalls order (mxArrayToString p0) (mxGetScalar p1) p2 p3 p4 p5) [])[k]?.map
            toInt32
        = some (-2013) →
      mexFunction order lib [p0, p1, p2, p3, p4, p5]
        = ⟨some fileExistsError,
            (cdfCalls order (mxArrayToString p0) (mxGetScalar p1) p2 p3 p4 p5).take (k + 1),
            printedFor ((statusesFrom lib
              (cdfCalls order (mxArrayToString p0) (mxGetScalar p1) p2 p3 p4 p5) []).take k)⟩) ∧
    ((-2013 : Int) ∉ (statusesFrom lib
          (cdfCalls order (mxArrayToString p0) (mxGetScalar p1) p2 p3 p4 p5) []).map toInt32 →
      mexFunction order lib [p0, p1, p2, p3, p4, p5]
        = ⟨none, cdfCalls order (mxArrayToString p0) (mxGetScalar p1) p2 p3 p4 p5,
            printedFor (statusesFrom lib
              (cdfCalls order (mxArrayToString p0) (mxGetScalar p1) p2 p3 p4 p5) [])⟩) := by
  rw [mexFunction_valid order lib p0 p1 p2 p3 p4 p5 h0 h1 hlo hhi]
  constructor
  · intro k hk1 hk2
    rw [runCalls_abort lib _ k [] [] hk1 hk2]
    simp
  · intro h
    rw [runCalls_complete lib _ [] [] h]
    simp

/-- C1 (amended), at the scenario of the specification. A library that answers the
fourth call (index 3, the first zVariable declaration) with -2013 ends the invocation
after four calls, and so does one that answers it with 4294965283, which the handler
receives as -2013. A library whose create step fails with -2065 does not end the
invocation, and neither does one whose create step returns 4294967296, which the handler
receives and prints as 0. -/
theorem only_file_exists_status_ends_invocation_witness :
    (mexFunction .lengthFirst (fun issued _ => if issued.length = 3 then -2013 else CDF_OK)
        [exFilename, exScId 2, exEpoch, exVectorA, exVectorB, exBitmask]
      = ⟨some fileExistsError,
          [.CDFcreateCDF "test1", .CDFsetEncoding .NETWORK_ENCODING,
           .CDFsetMajority .COLUMN_MAJOR,
           .CDFcreatezVar "mms2_sdp_epoch_dce" .CDF_TIME_TT2000 1 0 [3] VARY [NOVARY]
             .EPOCHvarNum],
          []⟩) ∧
    (mexFunction .lengthFirst libCreateFails
        [exFilename, exScId 2, exEpoch, exVectorA, exVectorB, exBitmask]
      = ⟨none, cdfCalls .lengthFirst "test1" 2 exEpoch exVectorA exVectorB exBitmask,
          ["Error found as: -2065\n"]⟩) ∧
    (mexFunction .lengthFirst
        (fun issued _ => if issued.length = 3 then 4294965283 else CDF_OK)
        [exFilename, exScId 2, exEpoch, exVectorA, exVectorB, exBitmask]
      = ⟨some fileExistsError,
          [.CDFcreateCDF "test1", .CDFsetEncoding .NETWORK_ENCODING,
           .CDFsetMajority .COLUMN_MAJOR,
           .CDFcreatezVar "mms2_sdp_epoch_dce" .CDF_TIME_TT2000 1 0 [3] VARY [NOVARY]
             .EPOCHvarNum],
          []⟩) ∧
    (mexFunction .lengthFirst
        (fun issued _ => if issued.length = 0 then 4294967296 else CDF_OK)
        [exFilename, exScId 2, exEpoch, exVectorA, exVectorB, exBitmask]
      = ⟨none, cdfCalls .lengthFirst "test1" 2 exEpoch exVectorA exVectorB exBitmask,
          ["Error found as: 0\n"]⟩) :=
  ⟨((only_file_exists_status_ends_invocation .lengthFirst
        (fun issued _ => if issued.length = 3 then -2013 else CDF_OK)
        exFilename (exScId 2) exEpoch exVectorA exVectorB exBitmask
        (by decide) (by decide) (by decide) (by decide)).1 3 (by decide) (by decide)).trans
      (by decide),
   ((only_file_exists_status_ends_invocation .lengthFirst libCreateFails
        exFilename (exScId 2) exEpoch exVectorA exVectorB exBitmask
        (by decide) (by decide) (by decide) (by decide)).2 (by decide)).trans (by decide),
   ((only_file_exists_status_ends_invocation .lengthFirst
        (fun issued _ => if issued.length = 3 then 4294965283 else CDF_OK)
        exFilename (exScId 2) exEpoch exVectorA exVectorB exBitmask
        (by decide) (by decide) (by decide) (by decide)).1 3 (by decide) (by decide)).trans
      (by decide),
   ((only_file_exists_status_ends_invocation .lengthFirst
        (fun issued _ => if issued.length = 0 then 4294967296 else CDF_OK)
        exFilename (exScId 2) exEpoch exVectorA exVectorB exBitmask
        (by decide) (by decide) (by decide) (by decide)).2 (by decide)).trans (by decide)⟩

/-- C2: when the create step returns the file-exists status -2013, the invocation ends in
the file-exists error (identifier `MATLAB:irfu_cdfwrite:filename_output:exists`) and the
create step is the only library call issued. Every error raised by the input checks, that
is every error raised while no library call has been issued, carries another
identifier. -/
theorem file_exists_at_create (order : ArgOrder) (lib : CDFlib)
    (p0 p1 p2 p3 p4 p5 : mxArray)
    (h0 : mxGetClassID p0 = 4) (h1 : mxGetClassID p1 = 8)
    (hlo : 1 ≤ mxGetScalar p1) (hhi : mxGetScalar p1 ≤ 4)
    (hex : lib [] (.CDFcreateCDF (mxArrayToString p0)) = -2013) :
    mexFunction order lib [p0, p1, p2, p3, p4, p5]
      = ⟨some fileExistsError, [.CDFcreateCDF (mxArrayToString p0)], []⟩ ∧
    fileExistsError.identifier = "MATLAB:irfu_cdfwrite:filename_output:exists" ∧
    (∀ (order2 : ArgOrder) (lib2 : CDFlib) (prhs : List mxArray) (e : MexError),
      (mexFunction order2 lib2 prhs).error = some e →
      (mexFunction order2 lib2 prhs).calls = [] →
      e.identifier ≠ fileExistsError.identifier) := by
  refine ⟨?_, rfl, ?_⟩
  · rw [mexFunction_valid order lib p0 p1 p2 p3 p4 p5 h0 h1 hlo hhi]
    obtain ⟨rest, hrest⟩ :=
      cdfCalls_eq_cons order (mxArrayToString p0) (mxGetScalar p1) p2 p3 p4 p5
    rw [hrest, runCalls_cons_exists lib _ rest [] [] (by rw [hex]; decide)]
    simp
  · intro order2 lib2 prhs e he hc
    rw [mexFunction_early_error order2 lib2 prhs e he hc]
    decide

/-- C2, at the scenario of the specification with the file already there. -/
theorem file_exists_at_create_witness :
    libFileExists [] (.CDFcreateCDF (mxArrayToString exFilename)) = -2013 ∧
    mexFunction .lengthFirst libFileExists
        [exFilename, exScId 2, exEpoch, exVectorA, exVectorB, exBitmask]
      = ⟨some fileExistsError, [.CDFcreateCDF (mxArrayToString exFilename)], []⟩ :=
  ⟨by decide,
   (file_exists_at_create .lengthFirst libFileExists
      exFilename (exScId 2) exEpoch exVectorA exVectorB exBitmask
      (by decide) (by decide) (by decide) (by decide) (by decide)).1⟩

/-- C3: with six arguments, a char filename and an int8 spacecraft id, the invocation
raises the spacecraft-id error exactly when the id is below 1 or above 4, and when it
raises that error no library call has been issued. -/
theorem sc_id_error_iff_out_of_range (order : ArgOrder) (lib : CDFlib)
    (p0 p1 p2 p3 p4 p5 : mxArray)
    (h0 : mxGetClassID p0 = 4) (h1 : mxGetClassID p1 = 8)
    (hmin : -128 ≤ mxGetScalar p1) (hmax : mxGetScalar p1 ≤ 127) :
    ((mexFunction order lib [p0, p1, p2, p3, p4, p5]).error
        = some (scIdRangeError (mxGetScalar p1))
      ↔ (mxGetScalar p1 < 1 ∨ 4 < mxGetScalar p1)) ∧
    ((mexFunction order lib [p0, p1, p2, p3, p4, p5]).error
        = some (scIdRangeError (mxGetScalar p1))
      → (mexFunction order lib [p0, p1, p2, p3, p4, p5]).calls = []) := by
  have ht : toInt8 (mxGetScalar p1) = mxGetScalar p1 := toInt8_of_range _ hmin hmax
  by_cases hr : mxGetScalar p1 > 4 ∨ mxGetScalar p1 < 1
  · have hrun : mexFunction order lib [p0, p1, p2, p3, p4, p5]
        = raiseEarly (scIdRangeError (mxGetScalar p1)) := by
      simp only [mexFunction, h0, h1, ht, hr, if_true]
    rw [hrun]
    refine ⟨⟨fun _ => by omega, fun _ => rfl⟩, fun _ => rfl⟩
  · have hlo : 1 ≤ mxGetScalar p1 := by omega
    have hhi : mxGetScalar p1 ≤ 4 := by omega
    rw [mexFunction_valid order lib p0 p1 p2 p3 p4 p5 h0 h1 hlo hhi]
    have hne : (runCalls lib (cdfCalls order (mxArrayToString p0) (mxGetScalar p1)
        p2 p3 p4 p5) [] []).error ≠ some (scIdRangeError (mxGetScalar p1)) := by
      intro habs
      rcases runCalls_error lib (cdfCalls order (mxArrayToString p0) (mxGetScalar p1)
        p2 p3 p4 p5) [] [] with hn | hf
      · rw [hn] at habs; exact absurd habs (by simp)
      · rw [hf] at habs
        have hid := congrArg MexError.identifier (Option.some.inj habs)
        revert hid
        simp only [scIdRangeError]
        decide
    exact ⟨⟨fun h => absurd h hne, fun h => by omega⟩, fun h => absurd h hne⟩

/-- C3, at spacecraft ids 0, 5 and -1 (error, no library call) and 2 (no such error). -/
theorem sc_id_error_iff_out_of_range_witness :
    (mexFunction .lengthFirst libAllOk
        [exFilename, exScId 0, exEpoch, exVectorA, exVectorB, exBitmask]).calls = [] ∧
    (mexFunction .lengthFirst libAllOk
        [exFilename, exScId 5, exEpoch, exVectorA, exVectorB, exBitmask]).calls = [] ∧
    (mexFunction .lengthFirst libAllOk
        [exFilename, exScId (-1), exEpoch, exVectorA, exVectorB, exBitmask]).calls = [] ∧
    ((mexFunction .lengthFirst libAllOk
        [exFilename, exScId 2, exEpoch, exVectorA, exVectorB, exBitmask]).error
        = some (scIdRangeError (mxGetScalar (exScId 2)))
      ↔ (mxGetScalar (exScId 2) < 1 ∨ 4 < mxGetScalar (exScId 2))) :=
  ⟨(sc_id_error_iff_out_of_range .lengthFirst libAllOk
      exFilename (exScId 0) exEpoch exVectorA exVectorB exBitmask
      (by decide) (by decide) (by decide) (by decide)).2 (by decide),
   (sc_id_error_iff_out_of_range .lengthFirst libAllOk
      exFilename (exScId 5) exEpoch exVectorA exVectorB exBitmask
      (by decide) (by decide) (by decide) (by decide)).2 (by decide),
   (sc_id_error_iff_out_of_range .lengthFirst libAllOk
      exFilename (exScId (-1)) exEpoch exVectorA exVectorB exBitmask
      (by decide) (by decide) (by decide) (by decide)).2 (by decide),
   (sc_id_error_iff_out_of_range .lengthFirst libAllOk
      exFilename (exScId 2) exEpoch exVectorA exVectorB exBitmask
      (by decide) (by decide) (by decide) (by decide)).1⟩

/-- C4: when the argument count is not six, or the first argument is not of class 4
(char), or the second argument is not of class 8 (int8), the invocation raises an input
error and has issued no library call. -/
theorem bad_arity_or_class_raises_before_create (order : ArgOrder) (lib : CDFlib)
    (prhs : List mxArray)
    (h : prhs.length ≠ 6 ∨ prhs[0]?.map mxGetClassID ≠ some 4 ∨
      prhs[1]?.map mxGetClassID ≠ some 8) :
    ∃ e : MexError, (mexFunction order lib prhs).error = some e ∧
      e.identifier = inputargId ∧ (mexFunction order lib prhs).calls = [] := by
  by_cases hlen : prhs.length = 6
  · rcases prhs with _ | ⟨p0, _ | ⟨p1, _ | ⟨p2, _ | ⟨p3, _ | ⟨p4, _ | ⟨p5, _ | ⟨g, t⟩⟩⟩⟩⟩⟩⟩ <;>
      simp at hlen
    simp only [List.length_cons, List.length_nil, ne_eq, not_true_eq_false,
      List.getElem?_cons_zero, List.getElem?_cons_succ, Option.map_some',
      Option.some.injEq, false_or] at h
    by_cases h0 : mxGetClassID p0 = 4
    · have h1 : mxGetClassID p1 ≠ 8 := by
        rcases h with h | h
        · exact absurd h0 h
        · exact h
      exact ⟨scIdClassError p1, by simp [mexFunction, h0, h1, raiseEarly], rfl,
        by simp [mexFunction, h0, h1, raiseEarly]⟩
    · exact ⟨filenameClassError p0, by simp [mexFunction, h0, raiseEarly], rfl,
        by simp [mexFunction, h0, raiseEarly]⟩
  · rw [mexFunction_of_length_ne order lib prhs hlen]
    exact ⟨argCountError, rfl, rfl, rfl⟩

/-- C4, at five arguments, at a numeric filename and at a spacecraft id of class double. -/
theorem bad_arity_or_class_raises_before_create_witness :
    (∃ e : MexError,
      (mexFunction .lengthFirst libAllOk
        [exFilename, exScId 2, exEpoch, exVectorA, exVectorB]).error = some e ∧
      e.identifier = inputargId ∧
      (mexFunction .lengthFirst libAllOk
        [exFilename, exScId 2, exEpoch, exVectorA, exVectorB]).calls = []) ∧
    (∃ e : MexError,
      (mexFunction .lengthFirst libAllOk
        [exEpoch, exScId 2, exEpoch, exVectorA, exVectorB, exBitmask]).error = some e ∧
      e.identifier = inputargId ∧
      (mexFunction .lengthFirst libAllOk
        [exEpoch, exScId 2, exEpoch, exVectorA, exVectorB, exBitmask]).calls = []) ∧
    (∃ e : MexError,
      (mexFunction .lengthFirst libAllOk
        [exFilename, ⟨6, "double", 1, 1, [2]⟩, exEpoch, exVectorA, exVectorB,
          exBitmask]).error = some e ∧
      e.identifier = inputargId ∧
      (mexFunction .lengthFirst libAllOk
        [exFilename, ⟨6, "double", 1, 1, [2]⟩, exEpoch, exVectorA, exVectorB,
          exBitmask]).calls = []) :=
  ⟨bad_arity_or_class_raises_before_create .lengthFirst libAllOk
      [exFilename, exScId 2, exEpoch, exVectorA, exVectorB] (Or.inl (by decide)),
   bad_arity_or_class_raises_before_create .lengthFirst libAllOk
      [exEpoch, exScId 2, exEpoch, exVectorA, exVectorB, exBitmask]
      (Or.inr (Or.inl (by decide))),
   bad_arity_or_class_raises_before_create .lengthFirst libAllOk
      [exFilename, ⟨6, "double", 1, 1, [2]⟩, exEpoch, exVectorA, exVectorB, exBitmask]
      (Or.inr (Or.inr (by decide)))⟩

/-! ## Reading the call sequence -/

theorem sc_id_cases (s : Int) (h1 : 1 ≤ s) (h2 : s ≤ 4) : s = 1 ∨ s = 2 ∨ s = 3 ∨ s = 4 := by
  omega

/-- An invocation with a spacecraft id from 1 to 4 that ends without error issued the
call sequence of that id. -/
theorem calls_of_no_error (order : ArgOrder) (lib : CDFlib) (p0 p1 p2 p3 p4 p5 : mxArray)
    (hlo : 1 ≤ mxGetScalar p1) (hhi : mxGetScalar p1 ≤ 4)
    (hrun : (mexFunction order lib [p0, p1, p2, p3, p4, p5]).error = none) :
    (mexFunction order lib [p0, p1, p2, p3, p4, p5]).calls
      = cdfCalls order (mxArrayToString p0) (mxGetScalar p1) p2 p3 p4 p5 := by
  have h := (mexFunction_of_no_error order lib p0 p1 p2 p3 p4 p5 hrun).2.2.2.2
  rwa [toInt8_of_range _ (by omega) (by omega)] at h

theorem zVarDecls_cdfCalls (order : ArgOrder) (filename : String) (s : Int)
    (p2 p3 p4 p5 : mxArray) :
    zVarDecls (cdfCalls order filename s p2 p3 p4 p5)
      = createzVars ("mms" ++ fmt_d s ++ "_") := by
  simp [zVarDecls, cdfCalls, createzVars, createGlobalAttributes, writeGlobalAttributes,
    createVariableAttributes, writeEpochAttributes, writeLabelAttributes, writeSensorAttributes,
    writeSensorDslAttributes, writeBitmaskAttributes, writeData]

theorem zVarShapes_cdfCalls (order : ArgOrder) (filename : String) (s : Int)
    (p2 p3 p4 p5 : mxArray) :
    zVarShapes (cdfCalls order filename s p2 p3 p4 p5)
      = [ (.CDF_TIME_TT2000, 1, [], VARY, []),
          (.CDF_CHAR, 4, [3], NOVARY, [VARY]),
          (.CDF_REAL4, 1, [3], VARY, [VARY]),
          (.CDF_REAL4, 1, [3], VARY, [VARY]),
          (.CDF_UINT4, 1, [1], VARY, [VARY]) ] := by
  simp [zVarShapes, cdfCalls, createzVars, createGlobalAttributes, writeGlobalAttributes,
    createVariableAttributes, writeEpochAttributes, writeLabelAttributes, writeSensorAttributes,
    writeSensorDslAttributes, writeBitmaskAttributes, writeData,
    EPOCHdimSizes, EPOCHrecVary, EPOCHdimVarys, LABELdimSizes, LABELrecVary, LABELdimVarys,
    SENSORdimSizes, SENSORrecVary, SENSORdimVarys, BITMASKdimSizes, BITMASKrecVary,
    BITMASKdimVarys]

theorem zVarNames_cdfCalls (order : ArgOrder) (filename : String) (s : Int)
    (p2 p3 p4 p5 : mxArray) :
    zVarNames (cdfCalls order filename s p2 p3 p4 p5)
      = [ "mms" ++ fmt_d s ++ "_" ++ "sdp_epoch_dce", "DCE_LABL_1",
          "mms" ++ fmt_d s ++ "_" ++ "sdp_dce_xyz_pgse",
          "mms" ++ fmt_d s ++ "_" ++ "sdp_dce_xyz_dsl",
          "mms" ++ fmt_d s ++ "_" ++ "sdp_dce_bitmask" ] := by
  simp [zVarNames, cdfCalls, createzVars, createGlobalAttributes, writeGlobalAttributes,
    createVariableAttributes, writeEpochAttributes, writeLabelAttributes, writeSensorAttributes,
    writeSensorDslAttributes, writeBitmaskAttributes, writeData, strcat, strcpy]

theorem attrEntries_Source_name_cdfCalls (order : ArgOrder) (filename : String) (s : Int)
    (p2 p3 p4 p5 : mxArray) :
    attrEntries "Source_name" (cdfCalls order filename s p2 p3 p4 p5)
      = [ .CDFputAttrgEntry "Source_name" 0 .CDF_CHAR
            (strlen ("MMS" ++ fmt_d s ++ ">MMS Satellite Number " ++ fmt_d s))
            (.chars ("MMS" ++ fmt_d s ++ ">MMS Satellite Number " ++ fmt_d s)) ] := by
  simp [attrEntries, cdfCalls, createzVars, createGlobalAttributes, writeGlobalAttributes,
    createVariableAttributes, writeEpochAttributes, writeLabelAttributes, writeSensorAttributes,
    writeSensorDslAttributes, writeBitmaskAttributes, writeData]

theorem attrEntries_SC_id_cdfCalls (order : ArgOrder) (filename : String) (s : Int)
    (p2 p3 p4 p5 : mxArray) :
    attrEntries "SC_id" (cdfCalls order filename s p2 p3 p4 p5)
      = [ .CDFputAttrzEntry "SC_id" .EPOCHvarNum .CDF_CHAR (strlen (fmt_d s)) (.chars (fmt_d s)),
          .CDFputAttrzEntry "SC_id" .SENSORvarNum .CDF_CHAR (strlen (fmt_d s)) (.chars (fmt_d s)),
          .CDFputAttrzEntry "SC_id" .SENSORvarNumDSL .CDF_CHAR (strlen (fmt_d s))
            (.chars (fmt_d s)) ] := by
  simp [attrEntries, cdfCalls, createzVars, createGlobalAttributes, writeGlobalAttributes,
    createVariableAttributes, writeEpochAttributes, writeLabelAttributes, writeSensorAttributes,
    writeSensorDslAttributes, writeBitmaskAttributes, writeData]

theorem attrEntries_FILLVAL_cdfCalls (order : ArgOrder) (filename : String) (s : Int)
    (p2 p3 p4 p5 : mxArray) :
    attrEntries "FILLVAL" (cdfCalls order filename s p2 p3 p4 p5)
      = [ .CDFputAttrzEntry "FILLVAL" .EPOCHvarNum .CDF_TIME_TT2000 1 Fillval_1,
          .CDFputAttrzEntry "FILLVAL" .SENSORvarNum .CDF_REAL4 1 Fillval_5,
          .CDFputAttrzEntry "FILLVAL" .SENSORvarNumDSL .CDF_REAL4 1 Fillval_6,
          .CDFputAttrzEntry "FILLVAL" .BITMASKvarNum .CDF_UINT4 1 Fillval_7 ] := by
  simp [attrEntries, cdfCalls, createzVars, createGlobalAttributes, writeGlobalAttributes,
    createVariableAttributes, writeEpochAttributes, writeLabelAttributes, writeSensorAttributes,
    writeSensorDslAttributes, writeBitmaskAttributes, writeData]

theorem dataWrites_cdfCalls (order : ArgOrder) (filename : String) (s : Int)
    (p2 p3 p4 p5 : mxArray) :
    dataWrites .EPOCHvarNum (cdfCalls order filename s p2 p3 p4 p5)
      = [(mxGetM p2, .mxData (mxGetData p2))] ∧
    dataWrites .LABELvarNum (cdfCalls order filename s p2 p3 p4 p5)
      = [(1, .chars buffer_0)] ∧
    dataWrites .SENSORvarNum (cdfCalls order filename s p2 p3 p4 p5)
      = [(mxGetN p3, .mxData (mxGetData p3))] ∧
    dataWrites .SENSORvarNumDSL (cdfCalls order filename s p2 p3 p4 p5)
      = [(mxGetN p4, .mxData (mxGetData p4))] ∧
    dataWrites .BITMASKvarNum (cdfCalls order filename s p2 p3 p4 p5)
      = [(mxGetM p5, .mxData (mxGetData p5))] := by
  refine ⟨?_, ?_, ?_, ?_, ?_⟩ <;>
  simp [dataWrites, cdfCalls, createzVars, createGlobalAttributes, writeGlobalAttributes,
    createVariableAttributes, writeEpochAttributes, writeLabelAttributes, writeSensorAttributes,
    writeSensorDslAttributes, writeBitmaskAttributes, writeData]

theorem zVarRecordValues_cdfCalls (order : ArgOrder) (filename : String) (s : Int)
    (p2 p3 p4 p5 : mxArray) :
    zVarRecordValues .EPOCHvarNum (cdfCalls order filename s p2 p3 p4 p5) = some 1 ∧
    zVarRecordValues .LABELvarNum (cdfCalls order filename s p2 p3 p4 p5) = some 12 ∧
    zVarRecordValues .SENSORvarNum (cdfCalls order filename s p2 p3 p4 p5) = some 3 ∧
    zVarRecordValues .SENSORvarNumDSL (cdfCalls order filename s p2 p3 p4 p5) = some 3 ∧
    zVarRecordValues .BITMASKvarNum (cdfCalls order filename s p2 p3 p4 p5) = some 1 := by
  refine ⟨?_, ?_, ?_, ?_, ?_⟩ <;>
  simp [zVarRecordValues, recordValues, cdfCalls, createzVars,
    EPOCHdimSizes, LABELdimSizes, SENSORdimSizes, BITMASKdimSizes]

theorem zVarType_cdfCalls (order : ArgOrder) (filename : String) (s : Int)
    (p2 p3 p4 p5 : mxArray) :
    zVarType .EPOCHvarNum (cdfCalls order filename s p2 p3 p4 p5) = some .CDF_TIME_TT2000 ∧
    zVarType .LABELvarNum (cdfCalls order filename s p2 p3 p4 p5) = some .CDF_CHAR ∧
    zVarType .SENSORvarNum (cdfCalls order filename s p2 p3 p4 p5) = some .CDF_REAL4 ∧
    zVarType .SENSORvarNumDSL (cdfCalls order filename s p2 p3 p4 p5) = some .CDF_REAL4 ∧
    zVarType .BITMASKvarNum (cdfCalls order filename s p2 p3 p4 p5) = some .CDF_UINT4 := by
  refine ⟨?_, ?_, ?_, ?_, ?_⟩ <;>
  simp [zVarType, cdfCalls, createzVars]

/-! ## The records a data write stores -/

theorem recordsRead_one {α : Type} (l : List α) :
    recordsRead 1 l.length l = some (l.map fun v => [v]) := by
  induction l with
  | nil => rfl
  | cons a t ih => simp [recordsRead, ih]

/-- C5: an invocation with a spacecraft id from 1 to 4 that ends without error has
declared exactly five zVariables, in this order: the time field (CDF_TIME_TT2000, no
dimension, record variance VARY), the label field DCE_LABL_1 (CDF_CHAR, 4 characters per
element, one dimension of 3 elements, record variance NOVARY), the pgse and dsl vector
fields (CDF_REAL4, one dimension of 3, VARY) and the bitmask field (CDF_UINT4, VARY).
Types, dimensions and variances are constants; only the names depend on the input, through
the spacecraft id. -/
theorem five_fields_in_fixed_order (order : ArgOrder) (lib : CDFlib)
    (p0 p1 p2 p3 p4 p5 : mxArray)
    (hlo : 1 ≤ mxGetScalar p1) (hhi : mxGetScalar p1 ≤ 4)
    (hrun : (mexFunction order lib [p0, p1, p2, p3, p4, p5]).error = none) :
    zVarDecls (mexFunction order lib [p0, p1, p2, p3, p4, p5]).calls
      = [ .CDFcreatezVar ("mms" ++ fmt_d (mxGetScalar p1) ++ "_sdp_epoch_dce")
            .CDF_TIME_TT2000 1 0 [3] VARY [NOVARY] .EPOCHvarNum,
          .CDFcreatezVar "DCE_LABL_1" .CDF_CHAR 4 1 [3] NOVARY [VARY] .LABELvarNum,
          .CDFcreatezVar ("mms" ++ fmt_d (mxGetScalar p1) ++ "_sdp_dce_xyz_pgse")
            .CDF_REAL4 1 1 [3] VARY [VARY] .SENSORvarNum,
          .CDFcreatezVar ("mms" ++ fmt_d (mxGetScalar p1) ++ "_sdp_dce_xyz_dsl")
            .CDF_REAL4 1 1 [3] VARY [VARY] .SENSORvarNumDSL,
          .CDFcreatezVar ("mms" ++ fmt_d (mxGetScalar p1) ++ "_sdp_dce_bitmask")
            .CDF_UINT4 1 1 [1] VARY [VARY] .BITMASKvarNum ] ∧
    zVarShapes (mexFunction order lib [p0, p1, p2, p3, p4, p5]).calls
      = [ (.CDF_TIME_TT2000, 1, [], VARY, []),
          (.CDF_CHAR, 4, [3], NOVARY, [VARY]),
          (.CDF_REAL4, 1, [3], VARY, [VARY]),
          (.CDF_REAL4, 1, [3], VARY, [VARY]),
          (.CDF_UINT4, 1, [1], VARY, [VARY]) ] := by
  rw [calls_of_no_error order lib p0 p1 p2 p3 p4 p5 hlo hhi hrun, zVarDecls_cdfCalls,
    zVarShapes_cdfCalls]
  refine ⟨?_, rfl⟩
  generalize mxGetScalar p1 = s at hlo hhi
  rcases sc_id_cases s hlo hhi with h | h | h | h <;> subst h <;> decide

/-- C5, at the scenario of the specification (spacecraft 2). -/
theorem five_fields_in_fixed_order_witness :
    (mexFunction .lengthFirst libAllOk
      [exFilename, exScId 2, exEpoch, exVectorA, exVectorB, exBitmask]).error = none ∧
    zVarDecls (mexFunction .lengthFirst libAllOk
      [exFilename, exScId 2, exEpoch, exVectorA, exVectorB, exBitmask]).calls
      = [ .CDFcreatezVar "mms2_sdp_epoch_dce" .CDF_TIME_TT2000 1 0 [3] VARY [NOVARY]
            .EPOCHvarNum,
          .CDFcreatezVar "DCE_LABL_1" .CDF_CHAR 4 1 [3] NOVARY [VARY] .LABELvarNum,
          .CDFcreatezVar "mms2_sdp_dce_xyz_pgse" .CDF_REAL4 1 1 [3] VARY [VARY] .SENSORvarNum,
          .CDFcreatezVar "mms2_sdp_dce_xyz_dsl" .CDF_REAL4 1 1 [3] VARY [VARY]
            .SENSORvarNumDSL,
          .CDFcreatezVar "mms2_sdp_dce_bitmask" .CDF_UINT4 1 1 [1] VARY [VARY]
            .BITMASKvarNum ] :=
  ⟨by decide,
   (five_fields_in_fixed_order .lengthFirst libAllOk
      exFilename (exScId 2) exEpoch exVectorA exVectorB exBitmask
      (by decide) (by decide) (by decide)).1.trans (by decide)⟩

/-- C6: for a spacecraft id `k` from 1 to 4, `%d` prints `k` as its one decimal digit; an
invocation that ends without error has created the time, pgse, dsl and bitmask fields
under the names `mms<k>_sdp_epoch_dce`, `mms<k>_sdp_dce_xyz_pgse`, `mms<k>_sdp_dce_xyz_dsl`
and `mms<k>_sdp_dce_bitmask` and the label field under the name `DCE_LABL_1`; the entry
of the global attribute Source_name is `MMS<k>>MMS Satellite Number <k>` and every entry
of the variable attribute SC_id is the digit `k`. -/
theorem names_embed_spacecraft_id (order : ArgOrder) (lib : CDFlib)
    (p0 p1 p2 p3 p4 p5 : mxArray)
    (hlo : 1 ≤ mxGetScalar p1) (hhi : mxGetScalar p1 ≤ 4)
    (hrun : (mexFunction order lib [p0, p1, p2, p3, p4, p5]).error = none) :
    fmt_d (mxGetScalar p1) = String.singleton (Char.ofNat (48 + (mxGetScalar p1).toNat)) ∧
    zVarNames (mexFunction order lib [p0, p1, p2, p3, p4, p5]).calls
      = [ "mms" ++ fmt_d (mxGetScalar p1) ++ "_sdp_epoch_dce",
          "DCE_LABL_1",
          "mms" ++ fmt_d (mxGetScalar p1) ++ "_sdp_dce_xyz_pgse",
          "mms" ++ fmt_d (mxGetScalar p1) ++ "_sdp_dce_xyz_dsl",
          "mms" ++ fmt_d (mxGetScalar p1) ++ "_sdp_dce_bitmask" ] ∧
    attrEntries "Source_name" (mexFunction order lib [p0, p1, p2, p3, p4, p5]).calls
      = [ .CDFputAttrgEntry "Source_name" 0 .CDF_CHAR 27
            (.chars ("MMS" ++ fmt_d (mxGetScalar p1) ++ ">MMS Satellite Number "
              ++ fmt_d (mxGetScalar p1))) ] ∧
    attrEntries "SC_id" (mexFunction order lib [p0, p1, p2, p3, p4, p5]).calls
      = [ .CDFputAttrzEntry "SC_id" .EPOCHvarNum .CDF_CHAR 1
            (.chars (fmt_d (mxGetScalar p1))),
          .CDFputAttrzEntry "SC_id" .SENSORvarNum .CDF_CHAR 1
            (.chars (fmt_d (mxGetScalar p1))),
          .CDFputAttrzEntry "SC_id" .SENSORvarNumDSL .CDF_CHAR 1
            (.chars (fmt_d (mxGetScalar p1))) ] := by
  rw [calls_of_no_error order lib p0 p1 p2 p3 p4 p5 hlo hhi hrun, zVarNames_cdfCalls,
    attrEntries_Source_name_cdfCalls, attrEntries_SC_id_cdfCalls]
  generalize mxGetScalar p1 = s at hlo hhi
  rcases sc_id_cases s hlo hhi with h | h | h | h <;> subst h <;> decide

/-- C6, at spacecraft 2 (the four `mms2_` names of the specification's scenario) and at
spacecraft 3 (`mms3_sdp_dce_xyz_pgse`). -/
theorem names_embed_spacecraft_id_witness :
    zVarNames (mexFunction .lengthFirst libAllOk
      [exFilename, exScId 2, exEpoch, exVectorA, exVectorB, exBitmask]).calls
      = [ "mms2_sdp_epoch_dce", "DCE_LABL_1", "mms2_sdp_dce_xyz_pgse",
          "mms2_sdp_dce_xyz_dsl", "mms2_sdp_dce_bitmask" ] ∧
    zVarNames (mexFunction .valueFirst libAllOk
      [exFilename, exScId 3, exEpoch, exVectorA, exVectorB, exBitmask]).calls
      = [ "mms3_sdp_epoch_dce", "DCE_LABL_1", "mms3_sdp_dce_xyz_pgse",
          "mms3_sdp_dce_xyz_dsl", "mms3_sdp_dce_bitmask" ] ∧
    attrEntries "Source_name" (mexFunction .valueFirst libAllOk
      [exFilename, exScId 3, exEpoch, exVectorA, exVectorB, exBitmask]).calls
      = [ .CDFputAttrgEntry "Source_name" 0 .CDF_CHAR 27
            (.chars "MMS3>MMS Satellite Number 3") ] :=
  ⟨(names_embed_spacecraft_id .lengthFirst libAllOk
      exFilename (exScId 2) exEpoch exVectorA exVectorB exBitmask
      (by decide) (by decide) (by decide)).2.1.trans (by decide),
   (names_embed_spacecraft_id .valueFirst libAllOk
      exFilename (exScId 3) exEpoch exVectorA exVectorB exBitmask
      (by decide) (by decide) (by decide)).2.1.trans (by decide),
   (names_embed_spacecraft_id .valueFirst libAllOk
      exFilename (exScId 3) exEpoch exVectorA exVectorB exBitmask
      (by decide) (by decide) (by decide)).2.2.1.trans (by decide)⟩

/-! ## The data written (claims C7 to C9) -/

/-- The calls of an invocation that ends without error, whatever the spacecraft id. -/
theorem calls_of_no_error_toInt8 (order : ArgOrder) (lib : CDFlib)
    (p0 p1 p2 p3 p4 p5 : mxArray)
    (hrun : (mexFunction order lib [p0, p1, p2, p3, p4, p5]).error = none) :
    (mexFunction order lib [p0, p1, p2, p3, p4, p5]).calls
      = cdfCalls order (mxArrayToString p0) (toInt8 (mxGetScalar p1)) p2 p3 p4 p5 :=
  (mexFunction_of_no_error order lib p0 p1 p2 p3 p4 p5 hrun).2.2.2.2

/-- C7 (as stated, refuted): the three epochs 100, 200, 300 supplied as a 1-by-3 row, the
shape of the MATLAB value `[100,200,300]`. The invocation ends without error; the time
field is written with a record count of 1 (the row dimension), so the one record 100 is
stored and not the three input values. -/
theorem epoch_row_stores_one_record :
    (mxGetData exEpochRow).length = 3 ∧
    (mexFunction .lengthFirst libAllOk
      [exFilename, exScId 2, exEpochRow, exVectorA, exVectorB, exBitmask]).error = none ∧
    dataWrites .EPOCHvarNum (mexFunction .lengthFirst libAllOk
      [exFilename, exScId 2, exEpochRow, exVectorA, exVectorB, exBitmask]).calls
      = [(1, .mxData [100, 200, 300])] ∧
    zVarRecordValues .EPOCHvarNum (mexFunction .lengthFirst libAllOk
      [exFilename, exScId 2, exEpochRow, exVectorA, exVectorB, exBitmask]).calls = some 1 ∧
    recordsRead 1 1 ([100, 200, 300] : List Int) = some [[100]] := by
  decide

/-- C7 (amended): for an epoch input that is a column of N values (N rows, one column),
an invocation that ends without error writes the time field once, with record count N
and the input's storage as buffer; a record of the time field is one value, so the
records stored are the N input values, one per record, in the order of the input. -/
theorem epoch_column_written_in_order (order : ArgOrder) (lib : CDFlib)
    (p0 p1 p2 p3 p4 p5 : mxArray)
    (hrun : (mexFunction order lib [p0, p1, p2, p3, p4, p5]).error = none)
    (hcol : mxGetN p2 = 1) (hwf : p2.wellFormed) :
    dataWrites .EPOCHvarNum (mexFunction order lib [p0, p1, p2, p3, p4, p5]).calls
      = [(mxGetM p2, .mxData (mxGetData p2))] ∧
    zVarRecordValues .EPOCHvarNum (mexFunction order lib [p0, p1, p2, p3, p4, p5]).calls
      = some 1 ∧
    mxGetM p2 = (mxGetData p2).length ∧
    recordsRead 1 (mxGetM p2) (mxGetData p2) = some ((mxGetData p2).map fun v => [v]) := by
  have hlen : mxGetM p2 = (mxGetData p2).length := by
    simp only [mxGetN, mxArray.wellFormed, mxGetM, mxGetData] at *
    rw [hwf, hcol, Nat.mul_one]
  rw [calls_of_no_error_toInt8 order lib p0 p1 p2 p3 p4 p5 hrun]
  refine ⟨(dataWrites_cdfCalls _ _ _ _ _ _ _).1, (zVarRecordValues_cdfCalls _ _ _ _ _ _ _).1,
    hlen, ?_⟩
  rw [hlen]
  exact recordsRead_one _

/-- C7 (amended), at the scenario of the specification: the column 100, 200, 300 is
stored as three records. -/
theorem epoch_column_written_in_order_witness :
    dataWrites .EPOCHvarNum (mexFunction .lengthFirst libAllOk
      [exFilename, exScId 2, exEpoch, exVectorA, exVectorB, exBitmask]).calls
      = [(3, .mxData [100, 200, 300])] ∧
    recordsRead 1 3 ([100, 200, 300] : List Int) = some [[100], [200], [300]] :=
  ⟨(epoch_column_written_in_order .lengthFirst libAllOk
      exFilename (exScId 2) exEpoch exVectorA exVectorB exBitmask
      (by decide) (by decide) (by decide)).1,
   (epoch_column_written_in_order .lengthFirst libAllOk
      exFilename (exScId 2) exEpoch exVectorA exVectorB exBitmask
      (by decide) (by decide) (by decide)).2.2.2⟩

/-- C9: whatever the filename, spacecraft id and data arrays, an invocation that ends
without error writes the label field once, with record count 1 and the constant text
DCVXDCVYDCVZ as buffer. The label field is declared with 3 elements of 4 characters, so
a record is 12 characters: the 12 characters of the text are exactly the one record. -/
theorem label_is_one_fixed_record (order : ArgOrder) (lib : CDFlib)
    (p0 p1 p2 p3 p4 p5 : mxArray)
    (hrun : (mexFunction order lib [p0, p1, p2, p3, p4, p5]).error = none) :
    dataWrites .LABELvarNum (mexFunction order lib [p0, p1, p2, p3, p4, p5]).calls
      = [(1, .chars "DCVXDCVYDCVZ")] ∧
    zVarRecordValues .LABELvarNum (mexFunction order lib [p0, p1, p2, p3, p4, p5]).calls
      = some (3 * 4) ∧
    "DCVXDCVYDCVZ".length = 3 * 4 ∧
    recordsRead (3 * 4) 1 "DCVXDCVYDCVZ".toList = some ["DCVXDCVYDCVZ".toList] := by
  rw [calls_of_no_error_toInt8 order lib p0 p1 p2 p3 p4 p5 hrun]
  exact ⟨(dataWrites_cdfCalls _ _ _ _ _ _ _).2.1, (zVarRecordValues_cdfCalls _ _ _ _ _ _ _).2.1,
    by decide, by decide⟩

/-- C9, at the scenario of the specification. -/
theorem label_is_one_fixed_record_witness :
    (mexFunction .lengthFirst libAllOk
      [exFilename, exScId 2, exEpoch, exVectorA, exVectorB, exBitmask]).error = none ∧
    dataWrites .LABELvarNum (mexFunction .lengthFirst libAllOk
      [exFilename, exScId 2, exEpoch, exVectorA, exVectorB, exBitmask]).calls
      = [(1, .chars "DCVXDCVYDCVZ")] :=
  ⟨by decide,
   (label_is_one_fixed_record .lengthFirst libAllOk
      exFilename (exScId 2) exEpoch exVectorA exVectorB exBitmask (by decide)).1⟩

/-! ## Fill values (claim C10) -/

/-- C10: in an invocation that ends without error the FILLVAL entries are, in order: for
the time field the signed 64-bit value -9223372036854775808 = -2^63 with type
CDF_TIME_TT2000; for each of the two vector fields the constant -1.0e+31 (the number
-10^31) with type CDF_REAL4; for the bitmask field 4294967295 = 2^32 - 1 with type
CDF_UINT4. Each is one element, and its type is the type its field was declared with. -/
theorem fill_value_entries (order : ArgOrder) (lib : CDFlib)
    (p0 p1 p2 p3 p4 p5 : mxArray)
    (hrun : (mexFunction order lib [p0, p1, p2, p3, p4, p5]).error = none) :
    attrEntries "FILLVAL" (mexFunction order lib [p0, p1, p2, p3, p4, p5]).calls
      = [ .CDFputAttrzEntry "FILLVAL" .EPOCHvarNum .CDF_TIME_TT2000 1
            (.int64s [-9223372036854775808]),
          .CDFputAttrzEntry "FILLVAL" .SENSORvarNum .CDF_REAL4 1 (.floats [-1.0e+31]),
          .CDFputAttrzEntry "FILLVAL" .SENSORvarNumDSL .CDF_REAL4 1 (.floats [-1.0e+31]),
          .CDFputAttrzEntry "FILLVAL" .BITMASKvarNum .CDF_UINT4 1 (.uint32s [4294967295]) ] ∧
    (-9223372036854775808 : Int) = -2 ^ 63 ∧
    DecimalLit.toRat (-1.0e+31) = -(10 : ℚ) ^ 31 ∧
    (4294967295 : Nat) = 2 ^ 32 - 1 ∧
    zVarType .EPOCHvarNum (mexFunction order lib [p0, p1, p2, p3, p4, p5]).calls
      = some .CDF_TIME_TT2000 ∧
    zVarType .SENSORvarNum (mexFunction order lib [p0, p1, p2, p3, p4, p5]).calls
      = some .CDF_REAL4 ∧
    zVarType .SENSORvarNumDSL (mexFunction order lib [p0, p1, p2, p3, p4, p5]).calls
      = some .CDF_REAL4 ∧
    zVarType .BITMASKvarNum (mexFunction order lib [p0, p1, p2, p3, p4, p5]).calls
      = some .CDF_UINT4 := by
  rw [calls_of_no_error_toInt8 order lib p0 p1 p2 p3 p4 p5 hrun, attrEntries_FILLVAL_cdfCalls]
  have ht := zVarType_cdfCalls order (mxArrayToString p0) (toInt8 (mxGetScalar p1))
    p2 p3 p4 p5
  refine ⟨by decide, by norm_num, ?_, by norm_num, ht.1, ht.2.2.1, ht.2.2.2.1, ht.2.2.2.2⟩
  have hlit : (-1.0e+31 : DecimalLit) = ⟨true, 10, 30⟩ := by decide
  rw [hlit]
  norm_num [DecimalLit.toRat]

/-- C10, at the scenario of the specification. -/
theorem fill_value_entries_witness :
    (mexFunction .lengthFirst libAllOk
      [exFilename, exScId 2, exEpoch, exVectorA, exVectorB, exBitmask]).error = none ∧
    attrEntries "FILLVAL" (mexFunction .lengthFirst libAllOk
      [exFilename, exScId 2, exEpoch, exVectorA, exVectorB, exBitmask]).calls
      = [ .CDFputAttrzEntry "FILLVAL" .EPOCHvarNum .CDF_TIME_TT2000 1
            (.int64s [-9223372036854775808]),
          .CDFputAttrzEntry "FILLVAL" .SENSORvarNum .CDF_REAL4 1 (.floats [-1.0e+31]),
          .CDFputAttrzEntry "FILLVAL" .SENSORvarNumDSL .CDF_REAL4 1 (.floats [-1.0e+31]),
          .CDFputAttrzEntry "FILLVAL" .BITMASKvarNum .CDF_UINT4 1 (.uint32s [4294967295]) ] :=
  ⟨by decide,
   (fill_value_entries .lengthFirst libAllOk
      exFilename (exScId 2) exEpoch exVectorA exVectorB exBitmask (by decide)).1⟩

/-! ## The shapes of the call sequence -/

/-- The shape of every call is fixed by the program text: it does not depend on the
arguments of the invocation. -/
theorem shape_cdfCalls (order : ArgOrder) (filename : String) (s : Int)
    (p2 p3 p4 p5 : mxArray) :
    (cdfCalls order filename s p2 p3 p4 p5).map Call.shape = cdfShapes := by
  simp [cdfShapes, cdfCalls, createzVars, createGlobalAttributes, writeGlobalAttributes,
    createVariableAttributes, writeEpochAttributes, writeLabelAttributes, writeSensorAttributes,
    writeSensorDslAttributes, writeBitmaskAttributes, writeData, Call.shape]

/-- The calls issued by a run are an initial part of its sequence. -/
theorem runCalls_calls_prefix (lib : CDFlib) (prog : List Call) :
    ∀ (issued : List Call) (printed : List String),
      ∃ k : Nat, (runCalls lib prog issued printed).calls = issued ++ prog.take k := by
  induction prog with
  | nil => intro issued printed; exact ⟨0, by simp [runCalls]⟩
  | cons c rest ih =>
    intro issued printed
    by_cases hok : lib issued c = CDF_OK
    · rw [runCalls_cons_ok _ _ _ _ _ hok]
      obtain ⟨k, hk⟩ := ih (issued ++ [c]) printed
      exact ⟨k + 1, by rw [hk]; simp⟩
    · by_cases hex : toInt32 (lib issued c) = -2013
      · rw [runCalls_cons_exists _ _ _ _ _ hex]
        exact ⟨1, by simp⟩
      · rw [runCalls_cons_other _ _ _ _ _ hok hex]
        obtain ⟨k, hk⟩ := ih (issued ++ [c]) _
        exact ⟨k + 1, by rw [hk]; simp⟩

/-- Whatever the arguments and the library, the shapes of the calls issued are an initial
part of the shapes of the call sequence. -/
theorem shapes_prefix (order : ArgOrder) (lib : CDFlib) (prhs : List mxArray) :
    ∃ k : Nat, (mexFunction order lib prhs).calls.map Call.shape = cdfShapes.take k := by
  by_cases hlen : prhs.length = 6
  · rcases prhs with _ | ⟨p0, _ | ⟨p1, _ | ⟨p2, _ | ⟨p3, _ | ⟨p4, _ | ⟨p5, _ | ⟨g, t⟩⟩⟩⟩⟩⟩⟩ <;>
      simp at hlen
    by_cases h0 : mxGetClassID p0 = 4
    · by_cases h1 : mxGetClassID p1 = 8
      · by_cases hr : toInt8 (mxGetScalar p1) > 4 ∨ toInt8 (mxGetScalar p1) < 1
        · exact ⟨0, by simp [mexFunction, h0, h1, hr, raiseEarly]⟩
        · simp only [mexFunction, h0, h1, hr, if_true, if_false]
          obtain ⟨k, hk⟩ := runCalls_calls_prefix lib
            (cdfCalls order (mxArrayToString p0) (toInt8 (mxGetScalar p1)) p2 p3 p4 p5) [] []
          refine ⟨k, ?_⟩
          rw [hk, List.nil_append, List.map_take, shape_cdfCalls]
      · exact ⟨0, by simp [mexFunction, h0, h1, raiseEarly]⟩
    · exact ⟨0, by simp [mexFunction, h0, raiseEarly]⟩
  · exact ⟨0, by simp [mexFunction_of_length_ne order lib prhs hlen, raiseEarly]⟩

/-- The shapes of the calls of an invocation that ends without error. -/
theorem shapes_of_no_error (order : ArgOrder) (lib : CDFlib) (p0 p1 p2 p3 p4 p5 : mxArray)
    (hrun : (mexFunction order lib [p0, p1, p2, p3, p4, p5]).error = none) :
    (mexFunction order lib [p0, p1, p2, p3, p4, p5]).calls.map Call.shape = cdfShapes := by
  rw [calls_of_no_error_toInt8 order lib p0 p1 p2 p3 p4 p5 hrun, shape_cdfCalls]

/-- With a char filename and an int8 spacecraft id from 1 to 4, the only error an
invocation can end in is the file-exists error. -/
theorem error_of_valid (order : ArgOrder) (lib : CDFlib) (p0 p1 p2 p3 p4 p5 : mxArray)
    (h0 : mxGetClassID p0 = 4) (h1 : mxGetClassID p1 = 8)
    (hlo : 1 ≤ mxGetScalar p1) (hhi : mxGetScalar p1 ≤ 4) (e : MexError)
    (he : (mexFunction order lib [p0, p1, p2, p3, p4, p5]).error = some e) :
    e = fileExistsError := by
  rw [mexFunction_valid order lib p0 p1 p2 p3 p4 p5 h0 h1 hlo hhi] at he
  rcases runCalls_error lib (cdfCalls order (mxArrayToString p0) (mxGetScalar p1)
    p2 p3 p4 p5) [] [] with hn | hf
  · rw [hn] at he; exact absurd he (by simp)
  · rw [hf] at he; exact (Option.some.inj he).symm

theorem allRefsDeclared_sound :
    ∀ (cs earlier : List CallShape), allRefsDeclared earlier cs = true →
      ∀ (pre : List CallShape) (c : CallShape) (post : List CallShape),
        cs = pre ++ c :: post → refsDeclared (earlier ++ pre) c := by
  intro cs
  induction cs with
  | nil => intro earlier _ pre c post h; simp at h
  | cons d rest ih =>
    intro earlier hall pre c post h
    simp only [allRefsDeclared, Bool.and_eq_true, decide_eq_true_eq] at hall
    cases pre with
    | nil =>
      simp only [List.nil_append, List.cons.injEq] at h
      rw [List.append_nil, ← h.1]
      exact hall.1
    | cons a pre2 =>
      simp only [List.cons_append, List.cons.injEq] at h
      have := ih (earlier ++ [d]) hall.2 pre2 c post h.2
      rw [← h.1]
      simpa using this

/-- A status that the handler receives from no call of the sequence does not occur among
the statuses it receives in the run. -/
theorem statusesFrom_not_mem (lib : CDFlib) (s : Int) (prog : List Call) :
    ∀ issued : List Call, (∀ c ∈ prog, ∀ before : List Call, toInt32 (lib before c) ≠ s) →
      s ∉ (statusesFrom lib prog issued).map toInt32 := by
  induction prog with
  | nil => intro issued _; simp [statusesFrom]
  | cons c rest ih =>
    intro issued h
    simp only [statusesFrom, List.map_cons, List.mem_cons, not_or]
    exact ⟨fun e => h c (List.mem_cons_self _ _) issued e.symm,
      ih _ (fun d hd => h d (List.mem_cons_of_mem _ hd))⟩

theorem cdfShapes_allRefsDeclared : allRefsDeclared [] cdfShapes = true := by decide

theorem cdfShapes_pairwise_variable_after_global :
    cdfShapes.Pairwise (fun a b =>
      ¬ (a.isAttrCreateIn .VARIABLE_SCOPE = true ∧ b.isGlobalEntry = true)) := by
  decide

theorem cdfShapes_pairwise_global :
    cdfShapes.Pairwise (fun a b =>
      ¬ (a.isGlobalEntry = true ∧ b.isAttrCreateIn .GLOBAL_SCOPE = true)) := by
  decide

theorem cdfShapes_pairwise_variable :
    cdfShapes.Pairwise (fun a b => ¬ (a.isVarEntry = true ∧ b.isAttrCreate = true)) := by
  decide


/-! ## Dependencies, ordering and lifecycle (claims C11 to C14) -/

theorem attrEntries_DEPEND_0_cdfCalls (order : ArgOrder) (filename : String) (s : Int)
    (p2 p3 p4 p5 : mxArray) :
    attrEntries "DEPEND_0" (cdfCalls order filename s p2 p3 p4 p5)
      = [ .CDFputAttrzEntry "DEPEND_0" .SENSORvarNum .CDF_CHAR
            (strlen ("mms" ++ fmt_d s ++ "_" ++ "sdp_epoch_dce"))
            (.chars ("mms" ++ fmt_d s ++ "_" ++ "sdp_epoch_dce")),
          .CDFputAttrzEntry "DEPEND_0" .SENSORvarNumDSL .CDF_CHAR
            (strlen ("mms" ++ fmt_d s ++ "_" ++ "sdp_epoch_dce"))
            (.chars ("mms" ++ fmt_d s ++ "_" ++ "sdp_epoch_dce")),
          .CDFputAttrzEntry "DEPEND_0" .BITMASKvarNum .CDF_CHAR
            (strlen ("mms" ++ fmt_d s ++ "_" ++ "sdp_epoch_dce"))
            (.chars ("mms" ++ fmt_d s ++ "_" ++ "sdp_epoch_dce")) ] := by
  cases order <;>
  simp [attrEntries, cdfCalls, createzVars, createGlobalAttributes, writeGlobalAttributes,
    createVariableAttributes, writeEpochAttributes, writeLabelAttributes, writeSensorAttributes,
    writeSensorDslAttributes, writeBitmaskAttributes, writeData, tmp_string_at_call,
    strcat, strcpy]

theorem zVarName_EPOCH_cdfCalls (order : ArgOrder) (filename : String) (s : Int)
    (p2 p3 p4 p5 : mxArray) :
    zVarName .EPOCHvarNum (cdfCalls order filename s p2 p3 p4 p5)
      = some ("mms" ++ fmt_d s ++ "_" ++ "sdp_epoch_dce") := by
  simp [zVarName, cdfCalls, createzVars, strcat, strcpy]

/-- C11: for a spacecraft id from 1 to 4, in an invocation that ends without error the
DEPEND_0 entries are three, one for each of the pgse, dsl and bitmask fields; the text of
each is the name under which the time field was created in that invocation,
`mms<id>_sdp_epoch_dce`, and its element count is the length of that name (18). This
holds for either order of evaluating the two argument expressions. -/
theorem depend_0_is_time_field_name (order : ArgOrder) (lib : CDFlib)
    (p0 p1 p2 p3 p4 p5 : mxArray)
    (hlo : 1 ≤ mxGetScalar p1) (hhi : mxGetScalar p1 ≤ 4)
    (hrun : (mexFunction order lib [p0, p1, p2, p3, p4, p5]).error = none) :
    zVarName .EPOCHvarNum (mexFunction order lib [p0, p1, p2, p3, p4, p5]).calls
      = some ("mms" ++ fmt_d (mxGetScalar p1) ++ "_sdp_epoch_dce") ∧
    ("mms" ++ fmt_d (mxGetScalar p1) ++ "_sdp_epoch_dce").length = 18 ∧
    attrEntries "DEPEND_0" (mexFunction order lib [p0, p1, p2, p3, p4, p5]).calls
      = [ .CDFputAttrzEntry "DEPEND_0" .SENSORvarNum .CDF_CHAR
            ("mms" ++ fmt_d (mxGetScalar p1) ++ "_sdp_epoch_dce").length
            (.chars ("mms" ++ fmt_d (mxGetScalar p1) ++ "_sdp_epoch_dce")),
          .CDFputAttrzEntry "DEPEND_0" .SENSORvarNumDSL .CDF_CHAR
            ("mms" ++ fmt_d (mxGetScalar p1) ++ "_sdp_epoch_dce").length
            (.chars ("mms" ++ fmt_d (mxGetScalar p1) ++ "_sdp_epoch_dce")),
          .CDFputAttrzEntry "DEPEND_0" .BITMASKvarNum .CDF_CHAR
            ("mms" ++ fmt_d (mxGetScalar p1) ++ "_sdp_epoch_dce").length
            (.chars ("mms" ++ fmt_d (mxGetScalar p1) ++ "_sdp_epoch_dce")) ] := by
  rw [calls_of_no_error order lib p0 p1 p2 p3 p4 p5 hlo hhi hrun, zVarName_EPOCH_cdfCalls,
    attrEntries_DEPEND_0_cdfCalls]
  generalize mxGetScalar p1 = s at hlo hhi
  rcases sc_id_cases s hlo hhi with h | h | h | h <;> subst h <;> decide

/-- C11, at the scenario of the specification (spacecraft 2), for both orders of
evaluation. -/
theorem depend_0_is_time_field_name_witness :
    attrEntries "DEPEND_0" (mexFunction .lengthFirst libAllOk
      [exFilename, exScId 2, exEpoch, exVectorA, exVectorB, exBitmask]).calls
      = [ .CDFputAttrzEntry "DEPEND_0" .SENSORvarNum .CDF_CHAR 18
            (.chars "mms2_sdp_epoch_dce"),
          .CDFputAttrzEntry "DEPEND_0" .SENSORvarNumDSL .CDF_CHAR 18
            (.chars "mms2_sdp_epoch_dce"),
          .CDFputAttrzEntry "DEPEND_0" .BITMASKvarNum .CDF_CHAR 18
            (.chars "mms2_sdp_epoch_dce") ] ∧
    zVarName .EPOCHvarNum (mexFunction .valueFirst libAllOk
      [exFilename, exScId 2, exEpoch, exVectorA, exVectorB, exBitmask]).calls
      = some "mms2_sdp_epoch_dce" :=
  ⟨(depend_0_is_time_field_name .lengthFirst libAllOk
      exFilename (exScId 2) exEpoch exVectorA exVectorB exBitmask
      (by decide) (by decide) (by decide)).2.2.trans (by decide),
   (depend_0_is_time_field_name .valueFirst libAllOk
      exFilename (exScId 2) exEpoch exVectorA exVectorB exBitmask
      (by decide) (by decide) (by decide)).1.trans (by decide)⟩

/-- C12 (as stated, refuted): in the scenario of the specification call number 42 of the
invocation writes the entry of the global attribute Project, and call number 68, later,
declares the variable attribute FIELDNAM: an attribute-create call follows an
attribute-entry write. -/
theorem variable_attribute_created_after_global_entry :
    (mexFunction .lengthFirst libAllOk
      [exFilename, exScId 2, exEpoch, exVectorA, exVectorB, exBitmask]).calls[42]?
      = some (.CDFputAttrgEntry "Project" 0 .CDF_CHAR 29
          (.chars "STP>Solar-Terrestrial Physics")) ∧
    (mexFunction .lengthFirst libAllOk
      [exFilename, exScId 2, exEpoch, exVectorA, exVectorB, exBitmask]).calls[68]?
      = some (.CDFattrCreate "FIELDNAM" .VARIABLE_SCOPE) ∧
    (CallShape.gEntry "Project").isEntry = true ∧
    (CallShape.attrCreate "FIELDNAM" .VARIABLE_SCOPE).isAttrCreate = true := by
  decide

/-- C12 (amended): whatever the arguments and the library, among the calls of an
invocation the attribute declarations of each scope come before the first value of that
scope is written: no declaration of a global attribute follows the write of a global
attribute entry, and no attribute declaration at all follows the write of a variable
attribute entry. The declarations of variable scope come after the global entries: no
write of a global attribute entry follows the declaration of a variable attribute. -/
theorem attributes_declared_before_entries_of_their_scope (order : ArgOrder) (lib : CDFlib)
    (prhs : List mxArray) :
    ((mexFunction order lib prhs).calls.map Call.shape).Pairwise (fun a b =>
      ¬ (a.isGlobalEntry = true ∧ b.isAttrCreateIn .GLOBAL_SCOPE = true)) ∧
    ((mexFunction order lib prhs).calls.map Call.shape).Pairwise (fun a b =>
      ¬ (a.isVarEntry = true ∧ b.isAttrCreate = true)) ∧
    ((mexFunction order lib prhs).calls.map Call.shape).Pairwise (fun a b =>
      ¬ (a.isAttrCreateIn .VARIABLE_SCOPE = true ∧ b.isGlobalEntry = true)) := by
  obtain ⟨k, hk⟩ := shapes_prefix order lib prhs
  rw [hk]
  exact ⟨cdfShapes_pairwise_global.sublist (List.take_sublist k _),
    cdfShapes_pairwise_variable.sublist (List.take_sublist k _),
    cdfShapes_pairwise_variable_after_global.sublist (List.take_sublist k _)⟩

/-- C13: whatever the arguments and the library, at every point of the call sequence the
call issued refers only to what the calls before it declared: a global entry names an
attribute created earlier with global scope, a variable entry names an attribute created
earlier with variable scope and a zVariable created earlier, and a data write names a
zVariable created earlier. -/
theorem entries_and_writes_refer_to_earlier_declarations (order : ArgOrder) (lib : CDFlib)
    (prhs : List mxArray) (pre : List Call) (c : Call) (post : List Call)
    (hsplit : (mexFunction order lib prhs).calls = pre ++ c :: post) :
    refsDeclared (pre.map Call.shape) c.shape := by
  obtain ⟨k, hk⟩ := shapes_prefix order lib prhs
  rw [hsplit, List.map_append, List.map_cons] at hk
  have hall : cdfShapes
      = pre.map Call.shape ++ c.shape :: (post.map Call.shape ++ cdfShapes.drop k) := by
    conv_lhs => rw [← List.take_append_drop k cdfShapes, ← hk]
    simp
  have := allRefsDeclared_sound cdfShapes [] cdfShapes_allRefsDeclared _ _ _ hall
  simpa using this

/-- C13, in the scenario of the specification: when the FILLVAL entry of the bitmask field
is written (call number 167), the attribute FILLVAL has been created with variable scope
and the bitmask zVariable has been created. -/
theorem entries_and_writes_refer_to_earlier_declarations_witness :
    (mexFunction .lengthFirst libAllOk
      [exFilename, exScId 2, exEpoch, exVectorA, exVectorB, exBitmask]).calls[167]?
      = some (.CDFputAttrzEntry "FILLVAL" .BITMASKvarNum .CDF_UINT4 1
          (.uint32s [4294967295])) ∧
    (CallShape.attrCreate "FILLVAL" .VARIABLE_SCOPE
        ∈ ((mexFunction .lengthFirst libAllOk
            [exFilename, exScId 2, exEpoch, exVectorA, exVectorB, exBitmask]).calls.take
              167).map Call.shape ∧
      CallShape.zVar .BITMASKvarNum
        ∈ ((mexFunction .lengthFirst libAllOk
            [exFilename, exScId 2, exEpoch, exVectorA, exVectorB, exBitmask]).calls.take
              167).map Call.shape) :=
  ⟨by decide,
   entries_and_writes_refer_to_earlier_declarations .lengthFirst libAllOk
      [exFilename, exScId 2, exEpoch, exVectorA, exVectorB, exBitmask]
      ((mexFunction .lengthFirst libAllOk
        [exFilename, exScId 2, exEpoch, exVectorA, exVectorB, exBitmask]).calls.take 167)
      (.CDFputAttrzEntry "FILLVAL" .BITMASKvarNum .CDF_UINT4 1 (.uint32s [4294967295]))
      ((mexFunction .lengthFirst libAllOk
        [exFilename, exScId 2, exEpoch, exVectorA, exVectorB, exBitmask]).calls.drop 168)
      (by decide)⟩


theorem create_not_mem_tail_cdfShapes : CallShape.create ∉ cdfShapes.tail := by decide

/-- When the handler receives -2013 from the create step only and the create step
succeeds, no call of the sequence is answered with a status the handler receives as
-2013. -/
theorem no_exists_status_after_create (order : ArgOrder) (lib : CDFlib) (filename : String)
    (s : Int) (p2 p3 p4 p5 : mxArray)
    (hcreate : lib [] (.CDFcreateCDF filename) = CDF_OK)
    (hlib : ∀ (issued : List Call) (c : Call),
      toInt32 (lib issued c) = -2013 → c.shape = .create) :
    (-2013 : Int) ∉ (statusesFrom lib (cdfCalls order filename s p2 p3 p4 p5) []).map
      toInt32 := by
  obtain ⟨rest, hrest⟩ := cdfCalls_eq_cons order filename s p2 p3 p4 p5
  have hshape := shape_cdfCalls order filename s p2 p3 p4 p5
  rw [hrest] at hshape ⊢
  have htail : rest.map Call.shape = cdfShapes.tail := by
    rw [← hshape]; rfl
  simp only [statusesFrom, List.map_cons, List.mem_cons, not_or]
  refine ⟨?_, statusesFrom_not_mem lib _ rest _ ?_⟩
  · rw [hcreate]; decide
  · intro c hc before hex
    have h1 : c.shape ∈ rest.map Call.shape := List.mem_map_of_mem _ hc
    rw [htail, hlib before c hex] at h1
    exact create_not_mem_tail_cdfShapes h1

/-- When the create step succeeds and no later call is answered with a status the
handler receives as -2013, no call of the sequence is. -/
theorem no_exists_status_of_tail (order : ArgOrder) (lib : CDFlib) (filename : String)
    (s : Int) (p2 p3 p4 p5 : mxArray)
    (hcreate : lib [] (.CDFcreateCDF filename) = CDF_OK)
    (hlater : (-2013 : Int) ∉
      (statusesFrom lib (cdfCalls order filename s p2 p3 p4 p5) []).tail.map toInt32) :
    (-2013 : Int) ∉ (statusesFrom lib (cdfCalls order filename s p2 p3 p4 p5) []).map
      toInt32 := by
  obtain ⟨rest, hrest⟩ := cdfCalls_eq_cons order filename s p2 p3 p4 p5
  rw [hrest] at hlater ⊢
  simp only [statusesFrom, List.tail_cons] at hlater
  simp only [statusesFrom, List.map_cons, List.mem_cons, not_or]
  refine ⟨?_, hlater⟩
  rw [hcreate]; decide

theorem getLast_cdfCalls (order : ArgOrder) (filename : String) (s : Int)
    (p2 p3 p4 p5 : mxArray) :
    (cdfCalls order filename s p2 p3 p4 p5).getLast? = some .CDFcloseCDF := by
  unfold cdfCalls
  simp only [List.getLast?_append, List.getLast?_singleton, Option.or_some]

/-- C14 (as stated, refuted): the scenario of the specification with a library whose
create step succeeds and which answers the fourth call, the declaration of the time
zVariable, with -2013. The arguments pass the input checks and the create step succeeds,
yet the invocation ends in the file-exists error after four calls: the dataset was
created once and is never closed, the last call issued is not the close. -/
theorem file_exists_status_after_create_skips_close :
    libExistsAtFourthCall [] (.CDFcreateCDF (mxArrayToString exFilename)) = CDF_OK ∧
    (mexFunction .lengthFirst libExistsAtFourthCall
      [exFilename, exScId 2, exEpoch, exVectorA, exVectorB, exBitmask]).error
      = some fileExistsError ∧
    (mexFunction .lengthFirst libExistsAtFourthCall
      [exFilename, exScId 2, exEpoch, exVectorA, exVectorB, exBitmask]).calls
      = [.CDFcreateCDF "test1", .CDFsetEncoding .NETWORK_ENCODING,
         .CDFsetMajority .COLUMN_MAJOR,
         .CDFcreatezVar "mms2_sdp_epoch_dce" .CDF_TIME_TT2000 1 0 [3] VARY [NOVARY]
           .EPOCHvarNum] ∧
    ((mexFunction .lengthFirst libExistsAtFourthCall
      [exFilename, exScId 2, exEpoch, exVectorA, exVectorB, exBitmask]).calls.map
        Call.shape).count .create = 1 ∧
    ((mexFunction .lengthFirst libExistsAtFourthCall
      [exFilename, exScId 2, exEpoch, exVectorA, exVectorB, exBitmask]).calls.map
        Call.shape).count .close = 0 ∧
    (mexFunction .lengthFirst libExistsAtFourthCall
      [exFilename, exScId 2, exEpoch, exVectorA, exVectorB, exBitmask]).calls.getLast?
      ≠ some .CDFcloseCDF := by
  decide

/-- C14 (amended): for an invocation that passes the input checks, whose create step
succeeds and in which no later call is answered with a status the handler receives as
-2013 (the handler receives the `long` status converted to `int`): the invocation ends
without error; among its calls there is one create, one close, one setting of the
encoding and one of the majority; the close is the last call; the first three calls are
the create, the setting of the encoding to network byte order and the setting of the
majority to column-major, and the call after them is the first zVariable declaration. -/
theorem created_once_closed_last (order : ArgOrder) (lib : CDFlib)
    (p0 p1 p2 p3 p4 p5 : mxArray)
    (h0 : mxGetClassID p0 = 4) (h1 : mxGetClassID p1 = 8)
    (hlo : 1 ≤ mxGetScalar p1) (hhi : mxGetScalar p1 ≤ 4)
    (hcreate : lib [] (.CDFcreateCDF (mxArrayToString p0)) = CDF_OK)
    (hlater : (-2013 : Int) ∉ (statusesFrom lib
        (cdfCalls order (mxArrayToString p0) (mxGetScalar p1) p2 p3 p4 p5) []).tail.map
          toInt32) :
    (mexFunction order lib [p0, p1, p2, p3, p4, p5]).error = none ∧
    ((mexFunction order lib [p0, p1, p2, p3, p4, p5]).calls.map Call.shape).count .create = 1 ∧
    ((mexFunction order lib [p0, p1, p2, p3, p4, p5]).calls.map Call.shape).count .close = 1 ∧
    ((mexFunction order lib [p0, p1, p2, p3, p4, p5]).calls.map Call.shape).count .setEncoding
      = 1 ∧
    ((mexFunction order lib [p0, p1, p2, p3, p4, p5]).calls.map Call.shape).count .setMajority
      = 1 ∧
    (mexFunction order lib [p0, p1, p2, p3, p4, p5]).calls.getLast? = some .CDFcloseCDF ∧
    (mexFunction order lib [p0, p1, p2, p3, p4, p5]).calls.take 3
      = [ .CDFcreateCDF (mxArrayToString p0), .CDFsetEncoding .NETWORK_ENCODING,
          .CDFsetMajority .COLUMN_MAJOR ] ∧
    ((mexFunction order lib [p0, p1, p2, p3, p4, p5]).calls.map Call.shape)[3]?
      = some (.zVar .EPOCHvarNum) := by
  rw [mexFunction_valid order lib p0 p1 p2 p3 p4 p5 h0 h1 hlo hhi,
    runCalls_complete lib _ [] [] (no_exists_status_of_tail order lib _ _ p2 p3 p4 p5
      hcreate hlater)]
  simp only [List.nil_append, shape_cdfCalls, getLast_cdfCalls]
  refine ⟨trivial, by decide, by decide, by decide, by decide, trivial, rfl, by decide⟩

/-- C14 (amended), at the scenario of the specification, with a library that knows of
another file only: the create step succeeds, no status of the run is received as -2013,
the invocation ends without error and its last call is the close. -/
theorem created_once_closed_last_witness :
    libWithFiles ["test0"] [] (.CDFcreateCDF (mxArrayToString exFilename)) = CDF_OK ∧
    (mexFunction .lengthFirst (libWithFiles ["test0"])
      [exFilename, exScId 2, exEpoch, exVectorA, exVectorB, exBitmask]).error = none ∧
    (mexFunction .lengthFirst (libWithFiles ["test0"])
      [exFilename, exScId 2, exEpoch, exVectorA, exVectorB, exBitmask]).calls.getLast?
      = some .CDFcloseCDF :=
  ⟨by decide,
   (created_once_closed_last .lengthFirst (libWithFiles ["test0"])
      exFilename (exScId 2) exEpoch exVectorA exVectorB exBitmask
      (by decide) (by decide) (by decide) (by decide) (by decide) (by decide)).1,
   (created_once_closed_last .lengthFirst (libWithFiles ["test0"])
      exFilename (exScId 2) exEpoch exVectorA exVectorB exBitmask
      (by decide) (by decide) (by decide) (by decide) (by decide)
      (by decide)).2.2.2.2.2.1⟩


/-! ## Checks the gateway does not make (claims C15 to C17) -/

/-- The gateway reads the class of its first two arguments only: replacing the class of
the four data arrays leaves the outcome as it is. -/
theorem mexFunction_withClass (order : ArgOrder) (lib : CDFlib) (p0 p1 p2 p3 p4 p5 : mxArray)
    (c2 c3 c4 c5 : Nat) (n2 n3 n4 n5 : String) :
    mexFunction order lib
        [p0, p1, p2.withClass c2 n2, p3.withClass c3 n3, p4.withClass c4 n4,
          p5.withClass c5 n5]
      = mexFunction order lib [p0, p1, p2, p3, p4, p5] := by
  simp only [mexFunction, cdfCalls, writeData, mxGetM, mxGetN, mxGetData, mxArray.withClass]

/-- C15 (as stated, refuted): the scenario of the specification with the epochs supplied
as an array of class double (class id 6) instead of int64. No input error is raised: the
invocation ends without error, and the storage of the double array is handed to the write
of the time field as it is. -/
theorem double_epoch_is_written_without_error :
    mxGetClassID exEpochDouble = 6 ∧
    (mexFunction .lengthFirst libAllOk
      [exFilename, exScId 2, exEpochDouble, exVectorA, exVectorB, exBitmask]).error = none ∧
    dataWrites .EPOCHvarNum (mexFunction .lengthFirst libAllOk
      [exFilename, exScId 2, exEpochDouble, exVectorA, exVectorB, exBitmask]).calls
      = [(3, .mxData [0x4059000000000000, 0x4069000000000000, 0x4072C00000000000])] := by
  decide

/-- C15 (amended): the gateway examines the class of the filename and of the spacecraft id
only. With a char filename and an int8 spacecraft id from 1 to 4, whatever the classes of
the epoch, vector and bitmask arrays: the outcome is the one obtained with the arrays of
any other class; no input error is raised (the only error possible is the file-exists
error); and when the invocation ends without error each data write is handed the storage
of its array as it is. -/
theorem data_array_classes_are_not_examined (order : ArgOrder) (lib : CDFlib)
    (p0 p1 p2 p3 p4 p5 : mxArray) (c2 c3 c4 c5 : Nat) (n2 n3 n4 n5 : String)
    (h0 : mxGetClassID p0 = 4) (h1 : mxGetClassID p1 = 8)
    (hlo : 1 ≤ mxGetScalar p1) (hhi : mxGetScalar p1 ≤ 4) :
    mexFunction order lib
        [p0, p1, p2.withClass c2 n2, p3.withClass c3 n3, p4.withClass c4 n4,
          p5.withClass c5 n5]
      = mexFunction order lib [p0, p1, p2, p3, p4, p5] ∧
    (∀ e : MexError,
      (mexFunction order lib
        [p0, p1, p2.withClass c2 n2, p3.withClass c3 n3, p4.withClass c4 n4,
          p5.withClass c5 n5]).error = some e →
      e = fileExistsError) ∧
    ((mexFunction order lib
        [p0, p1, p2.withClass c2 n2, p3.withClass c3 n3, p4.withClass c4 n4,
          p5.withClass c5 n5]).error = none →
      dataWrites .EPOCHvarNum (mexFunction order lib
        [p0, p1, p2.withClass c2 n2, p3.withClass c3 n3, p4.withClass c4 n4,
          p5.withClass c5 n5]).calls = [(mxGetM p2, .mxData (mxGetData p2))] ∧
      dataWrites .SENSORvarNum (mexFunction order lib
        [p0, p1, p2.withClass c2 n2, p3.withClass c3 n3, p4.withClass c4 n4,
          p5.withClass c5 n5]).calls = [(mxGetN p3, .mxData (mxGetData p3))] ∧
      dataWrites .SENSORvarNumDSL (mexFunction order lib
        [p0, p1, p2.withClass c2 n2, p3.withClass c3 n3, p4.withClass c4 n4,
          p5.withClass c5 n5]).calls = [(mxGetN p4, .mxData (mxGetData p4))] ∧
      dataWrites .BITMASKvarNum (mexFunction order lib
        [p0, p1, p2.withClass c2 n2, p3.withClass c3 n3, p4.withClass c4 n4,
          p5.withClass c5 n5]).calls = [(mxGetM p5, .mxData (mxGetData p5))]) := by
  rw [mexFunction_withClass]
  refine ⟨rfl, fun e he => error_of_valid order lib p0 p1 p2 p3 p4 p5 h0 h1 hlo hhi e he, ?_⟩
  intro hrun
  rw [calls_of_no_error_toInt8 order lib p0 p1 p2 p3 p4 p5 hrun]
  have hw := dataWrites_cdfCalls order (mxArrayToString p0) (toInt8 (mxGetScalar p1))
    p2 p3 p4 p5
  exact ⟨hw.1, hw.2.2.1, hw.2.2.2.1, hw.2.2.2.2⟩

/-- C15 (amended), at the scenario of the specification with every data array declared of
class double. -/
theorem data_array_classes_are_not_examined_witness :
    mexFunction .lengthFirst libAllOk
        [exFilename, exScId 2, exEpoch.withClass 6 "double", exVectorA.withClass 6 "double",
          exVectorB.withClass 6 "double", exBitmask.withClass 6 "double"]
      = mexFunction .lengthFirst libAllOk
        [exFilename, exScId 2, exEpoch, exVectorA, exVectorB, exBitmask] ∧
    dataWrites .BITMASKvarNum (mexFunction .lengthFirst libAllOk
        [exFilename, exScId 2, exEpoch.withClass 6 "double", exVectorA.withClass 6 "double",
          exVectorB.withClass 6 "double", exBitmask.withClass 6 "double"]).calls
      = [(mxGetM exBitmask, .mxData (mxGetData exBitmask))] :=
  ⟨(data_array_classes_are_not_examined .lengthFirst libAllOk
      exFilename (exScId 2) exEpoch exVectorA exVectorB exBitmask 6 6 6 6
      "double" "double" "double" "double"
      (by decide) (by decide) (by decide) (by decide)).1,
   ((data_array_classes_are_not_examined .lengthFirst libAllOk
      exFilename (exScId 2) exEpoch exVectorA exVectorB exBitmask 6 6 6 6
      "double" "double" "double" "double"
      (by decide) (by decide) (by decide) (by decide)).2.2 (by decide)).2.2.2⟩

/-- C17: the gateway does not compare the dimensions of its data arrays. With a char
filename and an int8 spacecraft id from 1 to 4, whatever the dimensions of the four data
arrays, no input error is raised (the only error possible is the file-exists error), and
an invocation that ends without error has written each field with a record count taken
from that field's own array: the rows of the epoch array, the columns of each vector array
(its rows of 3 floats, the input being flipped) and the rows of the bitmask array. -/
theorem row_counts_are_not_compared (order : ArgOrder) (lib : CDFlib)
    (p0 p1 p2 p3 p4 p5 : mxArray)
    (h0 : mxGetClassID p0 = 4) (h1 : mxGetClassID p1 = 8)
    (hlo : 1 ≤ mxGetScalar p1) (hhi : mxGetScalar p1 ≤ 4) :
    (∀ e : MexError, (mexFunction order lib [p0, p1, p2, p3, p4, p5]).error = some e →
      e = fileExistsError) ∧
    ((mexFunction order lib [p0, p1, p2, p3, p4, p5]).error = none →
      (dataWrites .EPOCHvarNum (mexFunction order lib [p0, p1, p2, p3, p4, p5]).calls).map
          Prod.fst = [mxGetM p2] ∧
      (dataWrites .SENSORvarNum (mexFunction order lib [p0, p1, p2, p3, p4, p5]).calls).map
          Prod.fst = [mxGetN p3] ∧
      (dataWrites .SENSORvarNumDSL (mexFunction order lib [p0, p1, p2, p3, p4, p5]).calls).map
          Prod.fst = [mxGetN p4] ∧
      (dataWrites .BITMASKvarNum (mexFunction order lib [p0, p1, p2, p3, p4, p5]).calls).map
          Prod.fst = [mxGetM p5]) := by
  refine ⟨fun e he => error_of_valid order lib p0 p1 p2 p3 p4 p5 h0 h1 hlo hhi e he, ?_⟩
  intro hrun
  rw [calls_of_no_error_toInt8 order lib p0 p1 p2 p3 p4 p5 hrun]
  have hw := dataWrites_cdfCalls order (mxArrayToString p0) (toInt8 (mxGetScalar p1))
    p2 p3 p4 p5
  rw [hw.1, hw.2.2.1, hw.2.2.2.1, hw.2.2.2.2]
  exact ⟨rfl, rfl, rfl, rfl⟩

/-- C17, with 3 epochs, 2 rows of pgse data, 3 rows of dsl data and 5 bitmask values: the
invocation ends without error and the record counts written are 3, 2, 3 and 5. -/
theorem row_counts_are_not_compared_witness :
    (mexFunction .lengthFirst libAllOk
      [exFilename, exScId 2, exEpoch, exVectorTwoRows, exVectorB, exBitmaskFive]).error
      = none ∧
    (dataWrites .EPOCHvarNum (mexFunction .lengthFirst libAllOk
      [exFilename, exScId 2, exEpoch, exVectorTwoRows, exVectorB, exBitmaskFive]).calls).map
        Prod.fst = [3] ∧
    (dataWrites .SENSORvarNum (mexFunction .lengthFirst libAllOk
      [exFilename, exScId 2, exEpoch, exVectorTwoRows, exVectorB, exBitmaskFive]).calls).map
        Prod.fst = [2] ∧
    (dataWrites .SENSORvarNumDSL (mexFunction .lengthFirst libAllOk
      [exFilename, exScId 2, exEpoch, exVectorTwoRows, exVectorB, exBitmaskFive]).calls).map
        Prod.fst = [3] ∧
    (dataWrites .BITMASKvarNum (mexFunction .lengthFirst libAllOk
      [exFilename, exScId 2, exEpoch, exVectorTwoRows, exVectorB, exBitmaskFive]).calls).map
        Prod.fst = [5] :=
  ⟨by decide,
   (row_counts_are_not_compared .lengthFirst libAllOk
      exFilename (exScId 2) exEpoch exVectorTwoRows exVectorB exBitmaskFive
      (by decide) (by decide) (by decide) (by decide)).2 (by decide)⟩


/-! ## Attribute entries of the fields (claims C18 to C20) -/

theorem attrEntries_Logical_file_id_cdfCalls (order : ArgOrder) (filename : String) (s : Int)
    (p2 p3 p4 p5 : mxArray) :
    attrEntries "Logical_file_id" (cdfCalls order filename s p2 p3 p4 p5)
      = [ .CDFputAttrgEntry "Logical_file_id" 0 .CDF_CHAR (strlen filename)
            (.chars filename) ] := by
  simp [attrEntries, cdfCalls, createzVars, createGlobalAttributes, writeGlobalAttributes,
    createVariableAttributes, writeEpochAttributes, writeLabelAttributes, writeSensorAttributes,
    writeSensorDslAttributes, writeBitmaskAttributes, writeData]

/-- A char array holding the characters of a text without NUL is read back as that
text. -/
theorem mxArrayToString_of_chars (a : mxArray) (s : String)
    (hpr : a.pr = s.toList.map (fun c => (c.toNat : Int)))
    (hnul : ∀ c ∈ s.toList, c ≠ Char.ofNat 0) : mxArrayToString a = s := by
  unfold mxArrayToString
  rw [hpr, List.map_map]
  have hmap : s.toList.map ((fun c : Int => Char.ofNat c.toNat) ∘ fun c : Char => (c.toNat : Int))
      = s.toList := by
    conv_rhs => rw [← List.map_id s.toList]
    apply List.map_congr_left
    intro c _
    simp [Function.comp, Char.ofNat_toNat]
  rw [hmap]
  have htw : s.toList.takeWhile (fun c => c != Char.ofNat 0) = s.toList := by
    rw [List.takeWhile_eq_self_iff]
    intro c hc
    simpa using hnul c hc
  rw [htw]
  cases s
  rfl

/-- C18: in an invocation that ends without error the entry of the global attribute
Logical_file_id is written once, as text (CDF_CHAR), from the very string the gateway read
as filename, with the length of that string as element count; and for a filename argument
holding the characters of a text `s` (none of them NUL) that string is `s`, character for
character. -/
theorem logical_file_id_is_the_filename (order : ArgOrder) (lib : CDFlib)
    (p0 p1 p2 p3 p4 p5 : mxArray)
    (hrun : (mexFunction order lib [p0, p1, p2, p3, p4, p5]).error = none) :
    attrEntries "Logical_file_id" (mexFunction order lib [p0, p1, p2, p3, p4, p5]).calls
      = [ .CDFputAttrgEntry "Logical_file_id" 0 .CDF_CHAR (mxArrayToString p0).length
            (.chars (mxArrayToString p0)) ] ∧
    (∀ s : String, p0.pr = s.toList.map (fun c => (c.toNat : Int)) →
      (∀ c ∈ s.toList, c ≠ Char.ofNat 0) → mxArrayToString p0 = s) := by
  rw [calls_of_no_error_toInt8 order lib p0 p1 p2 p3 p4 p5 hrun,
    attrEntries_Logical_file_id_cdfCalls]
  exact ⟨rfl, fun s hpr hnul => mxArrayToString_of_chars p0 s hpr hnul⟩

/-- C18, at the scenario of the specification: the entry is the 5 characters `test1`. -/
theorem logical_file_id_is_the_filename_witness :
    attrEntries "Logical_file_id" (mexFunction .lengthFirst libAllOk
      [exFilename, exScId 2, exEpoch, exVectorA, exVectorB, exBitmask]).calls
      = [ .CDFputAttrgEntry "Logical_file_id" 0 .CDF_CHAR 5 (.chars "test1") ] ∧
    mxArrayToString exFilename = "test1" :=
  ⟨(logical_file_id_is_the_filename .lengthFirst libAllOk
      exFilename (exScId 2) exEpoch exVectorA exVectorB exBitmask (by decide)).1.trans
      (by decide),
   (logical_file_id_is_the_filename .lengthFirst libAllOk
      exFilename (exScId 2) exEpoch exVectorA exVectorB exBitmask (by decide)).2
      "test1" (by decide) (by decide)⟩

/-- The entries written into one attribute of one zVariable are counted by the shapes of
the calls. -/
theorem zEntries_length (attrName : String) (v : VarNum) (cs : List Call) :
    (zEntries attrName v cs).length = (cs.map Call.shape).count (.zEntry attrName v) := by
  induction cs with
  | nil => rfl
  | cons c rest ih =>
    cases c <;> simp only [zEntries, List.filterMap_cons, List.map_cons, Call.shape,
      List.count_cons] at ih ⊢ <;> try (simp [ih])
    rename_i a w t n val
    by_cases h : a = attrName ∧ w = v
    · simp [h, ih]
    · have hne : ¬ (CallShape.zEntry a w = CallShape.zEntry attrName v) := by
        intro heq; injection heq with h1 h2; exact h ⟨h1, h2⟩
      simp [h, ih, hne]

/-- C19 (as stated, refuted): in the scenario of the specification the invocation ends
without error and has written no VALIDMIN, no VALIDMAX and no UNITS entry for the label
field. -/
theorem label_field_has_no_range_or_units :
    (mexFunction .lengthFirst libAllOk
      [exFilename, exScId 2, exEpoch, exVectorA, exVectorB, exBitmask]).error = none ∧
    zEntries "VALIDMIN" .LABELvarNum (mexFunction .lengthFirst libAllOk
      [exFilename, exScId 2, exEpoch, exVectorA, exVectorB, exBitmask]).calls = [] ∧
    zEntries "VALIDMAX" .LABELvarNum (mexFunction .lengthFirst libAllOk
      [exFilename, exScId 2, exEpoch, exVectorA, exVectorB, exBitmask]).calls = [] ∧
    zEntries "UNITS" .LABELvarNum (mexFunction .lengthFirst libAllOk
      [exFilename, exScId 2, exEpoch, exVectorA, exVectorB, exBitmask]).calls = [] := by
  decide

/-- C19 (amended): in an invocation that ends without error each of the two vector fields
and the bitmask field is given one entry of each of VALIDMIN, VALIDMAX, FILLVAL and UNITS;
the time field is given one entry of each of VALIDMIN, VALIDMAX and FILLVAL; the label
field, which is metadata, is given no VALIDMIN, no VALIDMAX and no UNITS entry. -/
theorem range_fill_and_units_entries (order : ArgOrder) (lib : CDFlib)
    (p0 p1 p2 p3 p4 p5 : mxArray)
    (hrun : (mexFunction order lib [p0, p1, p2, p3, p4, p5]).error = none) :
    (∀ a ∈ ["VALIDMIN", "VALIDMAX", "FILLVAL", "UNITS"],
      ∀ v ∈ [VarNum.SENSORvarNum, VarNum.SENSORvarNumDSL, VarNum.BITMASKvarNum],
        (zEntries a v (mexFunction order lib [p0, p1, p2, p3, p4, p5]).calls).length = 1) ∧
    (∀ a ∈ ["VALIDMIN", "VALIDMAX", "FILLVAL"],
      (zEntries a .EPOCHvarNum
        (mexFunction order lib [p0, p1, p2, p3, p4, p5]).calls).length = 1) ∧
    (∀ a ∈ ["VALIDMIN", "VALIDMAX", "UNITS"],
      zEntries a .LABELvarNum (mexFunction order lib [p0, p1, p2, p3, p4, p5]).calls = []) := by
  have hs := shapes_of_no_error order lib p0 p1 p2 p3 p4 p5 hrun
  refine ⟨?_, ?_, ?_⟩
  · intro a ha v hv
    rw [zEntries_length, hs]
    revert v
    revert a
    decide
  · intro a ha
    rw [zEntries_length, hs]
    revert a
    decide
  · intro a ha
    rw [← List.length_eq_zero, zEntries_length, hs]
    revert a
    decide

/-- C19 (amended), at the scenario of the specification. -/
theorem range_fill_and_units_entries_witness :
    (mexFunction .lengthFirst libAllOk
      [exFilename, exScId 2, exEpoch, exVectorA, exVectorB, exBitmask]).error = none ∧
    (zEntries "UNITS" .BITMASKvarNum (mexFunction .lengthFirst libAllOk
      [exFilename, exScId 2, exEpoch, exVectorA, exVectorB, exBitmask]).calls).length = 1 ∧
    (zEntries "VALIDMAX" .EPOCHvarNum (mexFunction .lengthFirst libAllOk
      [exFilename, exScId 2, exEpoch, exVectorA, exVectorB, exBitmask]).calls).length = 1 :=
  ⟨by decide,
   (range_fill_and_units_entries .lengthFirst libAllOk
      exFilename (exScId 2) exEpoch exVectorA exVectorB exBitmask (by decide)).1
      "UNITS" (by decide) .BITMASKvarNum (by decide),
   (range_fill_and_units_entries .lengthFirst libAllOk
      exFilename (exScId 2) exEpoch exVectorA exVectorB exBitmask (by decide)).2.1
      "VALIDMAX" (by decide)⟩

theorem zVarDims_cdfCalls (order : ArgOrder) (filename : String) (s : Int)
    (p2 p3 p4 p5 : mxArray) :
    zVarDims .EPOCHvarNum (cdfCalls order filename s p2 p3 p4 p5) = some (0, [3]) ∧
    zVarDims .BITMASKvarNum (cdfCalls order filename s p2 p3 p4 p5) = some (1, [1]) := by
  constructor <;>
  simp [zVarDims, cdfCalls, createzVars, EPOCHdimSizes, BITMASKdimSizes]

/-- C20 (as stated, refuted): in the scenario of the specification the bitmask field is
declared with 1 dimension, of size 1, and the time field with 0 dimensions. -/
theorem bitmask_field_has_one_dimension :
    (mexFunction .lengthFirst libAllOk
      [exFilename, exScId 2, exEpoch, exVectorA, exVectorB, exBitmask]).error = none ∧
    zVarDims .BITMASKvarNum (mexFunction .lengthFirst libAllOk
      [exFilename, exScId 2, exEpoch, exVectorA, exVectorB, exBitmask]).calls
      = some (1, [1]) ∧
    zVarDims .EPOCHvarNum (mexFunction .lengthFirst libAllOk
      [exFilename, exScId 2, exEpoch, exVectorA, exVectorB, exBitmask]).calls
      = some (0, [3]) := by
  decide

/-- C20 (amended): in an invocation that ends without error the bitmask field is declared
as a one-dimensional array with a single element (`numDims` 1, dimension size 1), whereas
the time field is declared with no dimension (`numDims` 0); a record of either field holds
one value. -/
theorem bitmask_is_one_dimensional_of_size_one (order : ArgOrder) (lib : CDFlib)
    (p0 p1 p2 p3 p4 p5 : mxArray)
    (hrun : (mexFunction order lib [p0, p1, p2, p3, p4, p5]).error = none) :
    zVarDims .BITMASKvarNum (mexFunction order lib [p0, p1, p2, p3, p4, p5]).calls
      = some (1, [1]) ∧
    zVarDims .EPOCHvarNum (mexFunction order lib [p0, p1, p2, p3, p4, p5]).calls
      = some (0, [3]) ∧
    zVarRecordValues .BITMASKvarNum (mexFunction order lib [p0, p1, p2, p3, p4, p5]).calls
      = some 1 ∧
    zVarRecordValues .EPOCHvarNum (mexFunction order lib [p0, p1, p2, p3, p4, p5]).calls
      = some 1 := by
  rw [calls_of_no_error_toInt8 order lib p0 p1 p2 p3 p4 p5 hrun]
  have hd := zVarDims_cdfCalls order (mxArrayToString p0) (toInt8 (mxGetScalar p1))
    p2 p3 p4 p5
  have hr := zVarRecordValues_cdfCalls order (mxArrayToString p0) (toInt8 (mxGetScalar p1))
    p2 p3 p4 p5
  exact ⟨hd.2, hd.1, hr.2.2.2.2, hr.1⟩

/-- C20 (amended), at the scenario of the specification. -/
theorem bitmask_is_one_dimensional_of_size_one_witness :
    (mexFunction .lengthFirst libAllOk
      [exFilename, exScId 2, exEpoch, exVectorA, exVectorB, exBitmask]).error = none ∧
    zVarDims .BITMASKvarNum (mexFunction .lengthFirst libAllOk
      [exFilename, exScId 2, exEpoch, exVectorA, exVectorB, exBitmask]).calls
      = some (1, [1]) :=
  ⟨by decide,
   (bitmask_is_one_dimensional_of_size_one .lengthFirst libAllOk
      exFilename (exScId 2) exEpoch exVectorA exVectorB exBitmask (by decide)).1⟩

/-! ## Required global attributes (claim C21) -/

/-- C21 (the code at the failing input): in the scenario of the specification, every
library call succeeding, the invocation ends without error having closed the dataset;
the global attributes LINK_TITLE, HTTP_LINK, LINK_TEXT and MODS, which the source marks
`REQ.`, were declared, and they are exactly the required global attributes for which no
entry was written. -/
theorem required_global_attributes_without_entry :
    (mexFunction .lengthFirst libAllOk
      [exFilename, exScId 2, exEpoch, exVectorA, exVectorB, exBitmask]).error = none ∧
    (mexFunction .lengthFirst libAllOk
      [exFilename, exScId 2, exEpoch, exVectorA, exVectorB, exBitmask]).calls.getLast?
      = some .CDFcloseCDF ∧
    (∀ a ∈ requiredGlobalAttributes,
      Call.CDFattrCreate a .GLOBAL_SCOPE ∈ (mexFunction .lengthFirst libAllOk
        [exFilename, exScId 2, exEpoch, exVectorA, exVectorB, exBitmask]).calls) ∧
    requiredGlobalAttributes.filter (fun a =>
      (attrEntries a (mexFunction .lengthFirst libAllOk
        [exFilename, exScId 2, exEpoch, exVectorA, exVectorB, exBitmask]).calls).isEmpty)
      = ["LINK_TITLE", "HTTP_LINK", "LINK_TEXT", "MODS"] := by
  decide

/-! ## Record counts (claim C22) -/

/-- C22: with a char filename and an int8 spacecraft id from 1 to 4, whatever the
dimensions and the storage of the data arrays, no input error is raised (the only error
possible is the file-exists error), and an invocation that ends without error has passed
as record count the row dimension M of the epoch and bitmask arrays and the column
dimension N of the two vector arrays. So an epoch or bitmask array with one row stores one
record, its first value, however many values it holds; and for a vector array of M rows
and N columns with M other than 3 (and N not 0) the 3*N floats of the N records are not
the M*N floats of the array. -/
theorem record_count_is_one_dimension (order : ArgOrder) (lib : CDFlib)
    (p0 p1 p2 p3 p4 p5 : mxArray)
    (h0 : mxGetClassID p0 = 4) (h1 : mxGetClassID p1 = 8)
    (hlo : 1 ≤ mxGetScalar p1) (hhi : mxGetScalar p1 ≤ 4) :
    (∀ e : MexError, (mexFunction order lib [p0, p1, p2, p3, p4, p5]).error = some e →
      e = fileExistsError) ∧
    ((mexFunction order lib [p0, p1, p2, p3, p4, p5]).error = none →
      dataWrites .EPOCHvarNum (mexFunction order lib [p0, p1, p2, p3, p4, p5]).calls
        = [(mxGetM p2, .mxData (mxGetData p2))] ∧
      dataWrites .SENSORvarNum (mexFunction order lib [p0, p1, p2, p3, p4, p5]).calls
        = [(mxGetN p3, .mxData (mxGetData p3))] ∧
      dataWrites .SENSORvarNumDSL (mexFunction order lib [p0, p1, p2, p3, p4, p5]).calls
        = [(mxGetN p4, .mxData (mxGetData p4))] ∧
      dataWrites .BITMASKvarNum (mexFunction order lib [p0, p1, p2, p3, p4, p5]).calls
        = [(mxGetM p5, .mxData (mxGetData p5))]) ∧
    (mxGetM p2 = 1 → 1 ≤ (mxGetData p2).length →
      recordsRead 1 (mxGetM p2) (mxGetData p2) = some [(mxGetData p2).take 1]) ∧
    (mxGetM p5 = 1 → 1 ≤ (mxGetData p5).length →
      recordsRead 1 (mxGetM p5) (mxGetData p5) = some [(mxGetData p5).take 1]) ∧
    (p3.wellFormed → mxGetM p3 ≠ 3 → 0 < mxGetN p3 →
      3 * mxGetN p3 ≠ (mxGetData p3).length) ∧
    (p4.wellFormed → mxGetM p4 ≠ 3 → 0 < mxGetN p4 →
      3 * mxGetN p4 ≠ (mxGetData p4).length) := by
  have hone : ∀ a : mxArray, mxGetM a = 1 → 1 ≤ (mxGetData a).length →
      recordsRead 1 (mxGetM a) (mxGetData a) = some [(mxGetData a).take 1] := by
    intro a hM hlen
    rw [hM]
    simp [recordsRead, hlen]
  have hvec : ∀ a : mxArray, a.wellFormed → mxGetM a ≠ 3 → 0 < mxGetN a →
      3 * mxGetN a ≠ (mxGetData a).length := by
    intro a hwf hM hN heq
    simp only [mxArray.wellFormed, mxGetM, mxGetN, mxGetData] at *
    rw [hwf] at heq
    exact hM (Nat.eq_of_mul_eq_mul_right hN heq).symm
  refine ⟨fun e he => error_of_valid order lib p0 p1 p2 p3 p4 p5 h0 h1 hlo hhi e he, ?_,
    hone p2, hone p5, hvec p3, hvec p4⟩
  intro hrun
  rw [calls_of_no_error_toInt8 order lib p0 p1 p2 p3 p4 p5 hrun]
  have hw := dataWrites_cdfCalls order (mxArrayToString p0) (toInt8 (mxGetScalar p1))
    p2 p3 p4 p5
  exact ⟨hw.1, hw.2.2.1, hw.2.2.2.1, hw.2.2.2.2⟩

/-- C22, with the epochs and the bitmasks as 1-by-3 rows and the pgse vectors as a 2-by-3
array: the invocation ends without error, the epoch write has record count 1 and stores
the one record 100, and the pgse write has record count 3, that is 9 floats, for an array
of 6. -/
theorem record_count_is_one_dimension_witness :
    (mexFunction .lengthFirst libAllOk
      [exFilename, exScId 2, exEpochRow, exVectorUnflipped, exVectorB, exBitmaskRow]).error
      = none ∧
    dataWrites .EPOCHvarNum (mexFunction .lengthFirst libAllOk
      [exFilename, exScId 2, exEpochRow, exVectorUnflipped, exVectorB, exBitmaskRow]).calls
      = [(1, .mxData [100, 200, 300])] ∧
    recordsRead 1 (mxGetM exEpochRow) (mxGetData exEpochRow) = some [[100]] ∧
    dataWrites .SENSORvarNum (mexFunction .lengthFirst libAllOk
      [exFilename, exScId 2, exEpochRow, exVectorUnflipped, exVectorB, exBitmaskRow]).calls
      = [(3, .mxData (mxGetData exVectorUnflipped))] ∧
    3 * mxGetN exVectorUnflipped ≠ (mxGetData exVectorUnflipped).length :=
  ⟨by decide,
   ((record_count_is_one_dimension .lengthFirst libAllOk
      exFilename (exScId 2) exEpochRow exVectorUnflipped exVectorB exBitmaskRow
      (by decide) (by decide) (by decide) (by decide)).2.1 (by decide)).1,
   ((record_count_is_one_dimension .lengthFirst libAllOk
      exFilename (exScId 2) exEpochRow exVectorUnflipped exVectorB exBitmaskRow
      (by decide) (by decide) (by decide) (by decide)).2.2.1 (by decide) (by decide)).trans
      (by decide),
   ((record_count_is_one_dimension .lengthFirst libAllOk
      exFilename (exScId 2) exEpochRow exVectorUnflipped exVectorB exBitmaskRow
      (by decide) (by decide) (by decide) (by decide)).2.1 (by decide)).2.1,
   (record_count_is_one_dimension .lengthFirst libAllOk
      exFilename (exScId 2) exEpochRow exVectorUnflipped exVectorB exBitmaskRow
      (by decide) (by decide) (by decide) (by decide)).2.2.2.2.1
      (by decide) (by decide) (by decide)⟩


/-! ## The Logical_source entry and the other text entries (claim C23) -/

theorem attrEntries_Logical_source_cdfCalls (order : ArgOrder) (filename : String) (s : Int)
    (p2 p3 p4 p5 : mxArray) :
    attrEntries "Logical_source" (cdfCalls order filename s p2 p3 p4 p5)
      = [ .CDFputAttrgEntry "Logical_source" 0 .CDF_CHAR
            (strlen ("mms" ++ fmt_d s ++ "_" ++ "sdp_dce"))
            (.chars (tmp_string_at_call order ("mms" ++ fmt_d s ++ "_" ++ "sdp_dce")
              ("mms" ++ fmt_d s ++ "_" ++ "sdp_epoch_dce"))) ] := by
  simp [attrEntries, cdfCalls, createzVars, createGlobalAttributes, writeGlobalAttributes,
    createVariableAttributes, writeEpochAttributes, writeLabelAttributes, writeSensorAttributes,
    writeSensorDslAttributes, writeBitmaskAttributes, writeData, strcat, strcpy]

theorem textCount_filter_cdfCalls (order : ArgOrder) (filename : String) (s : Int)
    (p2 p3 p4 p5 : mxArray) :
    (cdfCalls order filename s p2 p3 p4 p5).filter
        (fun c => decide (c.shape ≠ .gEntry "Logical_source") && !c.textCountMatches)
      = [] := by
  cases order <;>
  simp [cdfCalls, createzVars, createGlobalAttributes, writeGlobalAttributes,
    createVariableAttributes, writeEpochAttributes, writeLabelAttributes, writeSensorAttributes,
    writeSensorDslAttributes, writeBitmaskAttributes, writeData, Call.shape,
    Call.textCountMatches, Call.textEntry, tmp_string_at_call, ValidMin_1, ValidMax_1,
    Fillval_1, ValidMin_5, ValidMax_5, Fillval_5, ValidMin_6, ValidMax_6, Fillval_6,
    ValidMin_7, ValidMax_7, Fillval_7]

/-- Every text entry of the call sequence other than the Logical_source entry is handed
the length of its text as element count. -/
theorem textCountMatches_cdfCalls (order : ArgOrder) (filename : String) (s : Int)
    (p2 p3 p4 p5 : mxArray) :
    ∀ c ∈ cdfCalls order filename s p2 p3 p4 p5,
      c.shape ≠ .gEntry "Logical_source" → c.textCountMatches = true := by
  intro c hc hne
  have h := List.filter_eq_nil_iff.mp (textCount_filter_cdfCalls order filename s p2 p3 p4 p5)
    c hc
  simpa [hne] using h

/-- C23: for a spacecraft id `k` from 1 to 4, in an invocation that ends without error the
entry of the global attribute Logical_source is written with element count 12, the length
of `mms<k>_sdp_dce`, and the pointer to the shared buffer in which the value expression
builds the 18 characters `mms<k>_sdp_epoch_dce`. The text stored is the first 12
characters of the buffer: `mms<k>_sdp_epo` when the count is evaluated first and
`mms<k>_sdp_dce` when the value is evaluated first; in either order it has 12 characters,
begins with `mms<k>_sdp_` and is not the name of the time field. Every other text entry
of the invocation is handed the length of its text as element count. -/
theorem logical_source_count_and_text (order : ArgOrder) (lib : CDFlib)
    (p0 p1 p2 p3 p4 p5 : mxArray)
    (hlo : 1 ≤ mxGetScalar p1) (hhi : mxGetScalar p1 ≤ 4)
    (hrun : (mexFunction order lib [p0, p1, p2, p3, p4, p5]).error = none) :
    attrEntries "Logical_source" (mexFunction order lib [p0, p1, p2, p3, p4, p5]).calls
      = [ .CDFputAttrgEntry "Logical_source" 0 .CDF_CHAR 12
            (.chars (tmp_string_at_call order
              ("mms" ++ fmt_d (mxGetScalar p1) ++ "_sdp_dce")
              ("mms" ++ fmt_d (mxGetScalar p1) ++ "_sdp_epoch_dce"))) ] ∧
    ("mms" ++ fmt_d (mxGetScalar p1) ++ "_sdp_dce").length = 12 ∧
    ("mms" ++ fmt_d (mxGetScalar p1) ++ "_sdp_epoch_dce").length = 18 ∧
    zVarName .EPOCHvarNum (mexFunction order lib [p0, p1, p2, p3, p4, p5]).calls
      = some ("mms" ++ fmt_d (mxGetScalar p1) ++ "_sdp_epoch_dce") ∧
    storedText 12 (tmp_string_at_call .lengthFirst
        ("mms" ++ fmt_d (mxGetScalar p1) ++ "_sdp_dce")
        ("mms" ++ fmt_d (mxGetScalar p1) ++ "_sdp_epoch_dce"))
      = "mms" ++ fmt_d (mxGetScalar p1) ++ "_sdp_epo" ∧
    storedText 12 (tmp_string_at_call .valueFirst
        ("mms" ++ fmt_d (mxGetScalar p1) ++ "_sdp_dce")
        ("mms" ++ fmt_d (mxGetScalar p1) ++ "_sdp_epoch_dce"))
      = "mms" ++ fmt_d (mxGetScalar p1) ++ "_sdp_dce" ∧
    (∀ o : ArgOrder,
      (storedText 12 (tmp_string_at_call o
        ("mms" ++ fmt_d (mxGetScalar p1) ++ "_sdp_dce")
        ("mms" ++ fmt_d (mxGetScalar p1) ++ "_sdp_epoch_dce"))).length = 12 ∧
      storedText 9 (storedText 12 (tmp_string_at_call o
        ("mms" ++ fmt_d (mxGetScalar p1) ++ "_sdp_dce")
        ("mms" ++ fmt_d (mxGetScalar p1) ++ "_sdp_epoch_dce")))
        = "mms" ++ fmt_d (mxGetScalar p1) ++ "_sdp_" ∧
      storedText 12 (tmp_string_at_call o
        ("mms" ++ fmt_d (mxGetScalar p1) ++ "_sdp_dce")
        ("mms" ++ fmt_d (mxGetScalar p1) ++ "_sdp_epoch_dce"))
        ≠ "mms" ++ fmt_d (mxGetScalar p1) ++ "_sdp_epoch_dce") ∧
    (∀ c ∈ (mexFunction order lib [p0, p1, p2, p3, p4, p5]).calls,
      c.shape ≠ .gEntry "Logical_source" → c.textCountMatches = true) := by
  rw [calls_of_no_error order lib p0 p1 p2 p3 p4 p5 hlo hhi hrun,
    attrEntries_Logical_source_cdfCalls, zVarName_EPOCH_cdfCalls]
  refine ⟨?_, ?_, ?_, ?_, ?_, ?_, ?_, textCountMatches_cdfCalls _ _ _ _ _ _ _⟩
  · generalize mxGetScalar p1 = s at hlo hhi
    rcases sc_id_cases s hlo hhi with h | h | h | h <;> subst h <;> cases order <;> decide
  · generalize mxGetScalar p1 = s at hlo hhi
    rcases sc_id_cases s hlo hhi with h | h | h | h <;> subst h <;> decide
  · generalize mxGetScalar p1 = s at hlo hhi
    rcases sc_id_cases s hlo hhi with h | h | h | h <;> subst h <;> decide
  · generalize mxGetScalar p1 = s at hlo hhi
    rcases sc_id_cases s hlo hhi with h | h | h | h <;> subst h <;> decide
  · generalize mxGetScalar p1 = s at hlo hhi
    rcases sc_id_cases s hlo hhi with h | h | h | h <;> subst h <;> decide
  · generalize mxGetScalar p1 = s at hlo hhi
    rcases sc_id_cases s hlo hhi with h | h | h | h <;> subst h <;> decide
  · intro o
    generalize mxGetScalar p1 = s at hlo hhi
    rcases sc_id_cases s hlo hhi with h | h | h | h <;> subst h <;> cases o <;> decide

/-- C23, at the scenario of the specification (spacecraft 2) for both orders of evaluation:
the entry has count 12, and the text stored is `mms2_sdp_epo` or `mms2_sdp_dce`. -/
theorem logical_source_count_and_text_witness :
    attrEntries "Logical_source" (mexFunction .lengthFirst libAllOk
      [exFilename, exScId 2, exEpoch, exVectorA, exVectorB, exBitmask]).calls
      = [ .CDFputAttrgEntry "Logical_source" 0 .CDF_CHAR 12
            (.chars "mms2_sdp_epoch_dce") ] ∧
    attrEntries "Logical_source" (mexFunction .valueFirst libAllOk
      [exFilename, exScId 2, exEpoch, exVectorA, exVectorB, exBitmask]).calls
      = [ .CDFputAttrgEntry "Logical_source" 0 .CDF_CHAR 12 (.chars "mms2_sdp_dce") ] ∧
    storedText 12 "mms2_sdp_epoch_dce" = "mms2_sdp_epo" ∧
    storedText 12 "mms2_sdp_dce" = "mms2_sdp_dce" :=
  ⟨(logical_source_count_and_text .lengthFirst libAllOk
      exFilename (exScId 2) exEpoch exVectorA exVectorB exBitmask
      (by decide) (by decide) (by decide)).1.trans (by decide),
   (logical_source_count_and_text .valueFirst libAllOk
      exFilename (exScId 2) exEpoch exVectorA exVectorB exBitmask
      (by decide) (by decide) (by decide)).1.trans (by decide),
   by decide, by decide⟩


/-! ## Fixed buffers (claim C24) -/

/-- The call sequence is built from the three formatted strings. -/
theorem cdfCalls_strings (order : ArgOrder) (filename : String) (s : Int)
    (p2 p3 p4 p5 : mxArray) :
    cdfCalls order filename s p2 p3 p4 p5
      = [ .CDFcreateCDF filename, .CDFsetEncoding .NETWORK_ENCODING,
          .CDFsetMajority .COLUMN_MAJOR ]
        ++ createzVars (sprintf_sc s)
        ++ createGlobalAttributes
        ++ writeGlobalAttributes order filename (sprintf_sc s) (sprintf_tmp s)
        ++ createVariableAttributes
        ++ writeEpochAttributes order (sprintf_sc s) (sprintf_scid s)
        ++ writeLabelAttributes
        ++ writeSensorAttributes order (sprintf_sc s) (sprintf_scid s)
        ++ writeSensorDslAttributes order (sprintf_sc s) (sprintf_scid s)
        ++ writeBitmaskAttributes order (sprintf_sc s)
        ++ writeData p2 p3 p4 p5
        ++ [ .CDFcloseCDF ] :=
  rfl

/-- C24: for a spacecraft id from 1 to 4, each formatted string fits its character array
with its terminating NUL: `mms<id>_` has 5 characters (array of 6), the decimal id has 1
character (array of 2), every name built in `tmp_string` has at most 21 characters (array
of 250), and the Source_name text has 27 characters (array of 250). The names of the
zVariables created are the label name or names built in `tmp_string`. The int8 value
-128, which the range check rejects, would need 9 bytes for the prefix and 5 for the
decimal id, more than the arrays of 6 and 2 hold. -/
theorem formatted_strings_fit_their_buffers (order : ArgOrder) (filename : String)
    (s : Int) (p2 p3 p4 p5 : mxArray) (hlo : 1 ≤ s) (hhi : s ≤ 4) :
    ((sprintf_sc s).length = 5 ∧ fitsBuffer (sprintf_sc s) sc_size) ∧
    ((sprintf_scid s).length = 1 ∧ fitsBuffer (sprintf_scid s) scid_size) ∧
    (∀ suffix ∈ tmp_string_suffixes,
      (strcat (strcpy (sprintf_sc s)) suffix).length ≤ 21 ∧
      fitsBuffer (strcat (strcpy (sprintf_sc s)) suffix) tmp_string_size) ∧
    ((sprintf_tmp s).length = 27 ∧ fitsBuffer (sprintf_tmp s) tmp_size) ∧
    (∀ n ∈ zVarNames (cdfCalls order filename s p2 p3 p4 p5),
      n = "DCE_LABL_1" ∨
      n ∈ tmp_string_suffixes.map (fun suffix => strcat (strcpy (sprintf_sc s)) suffix)) ∧
    (toInt8 (-128) = -128 ∧ (sprintf_sc (-128)).length + 1 = 9 ∧
      ¬ fitsBuffer (sprintf_sc (-128)) sc_size ∧
      (sprintf_scid (-128)).length + 1 = 5 ∧
      ¬ fitsBuffer (sprintf_scid (-128)) scid_size) := by
  rw [zVarNames_cdfCalls]
  rcases sc_id_cases s hlo hhi with h | h | h | h <;> subst h <;> decide

/-- C24, at spacecraft 2: the three formatted strings and the longest name. -/
theorem formatted_strings_fit_their_buffers_witness :
    sprintf_sc 2 = "mms2_" ∧ sprintf_scid 2 = "2" ∧
    sprintf_tmp 2 = "MMS2>MMS Satellite Number 2" ∧
    (strcat (strcpy (sprintf_sc 2)) "sdp_dce_xyz_pgse").length ≤ 21 ∧
    fitsBuffer (sprintf_tmp 2) tmp_size :=
  ⟨by decide, by decide, by decide,
   ((formatted_strings_fit_their_buffers .lengthFirst "test1" 2
      exEpoch exVectorA exVectorB exBitmask (by decide) (by decide)).2.2.1
      "sdp_dce_xyz_pgse" (by decide)).1,
   (formatted_strings_fit_their_buffers .lengthFirst "test1" 2
      exEpoch exVectorA exVectorB exBitmask (by decide) (by decide)).2.2.2.1.2⟩

/-! ## Declared names (claim C25) -/

/-- The attribute names declared do not depend on the arguments of the invocation. -/
theorem attrNames_cdfCalls (order : ArgOrder) (filename : String) (s : Int)
    (p2 p3 p4 p5 : mxArray) :
    attrNamesDeclared (cdfCalls order filename s p2 p3 p4 p5)
      = attrNamesDeclaredIn .GLOBAL_SCOPE createGlobalAttributes
        ++ attrNamesDeclaredIn .VARIABLE_SCOPE createVariableAttributes ∧
    attrNamesDeclaredIn .GLOBAL_SCOPE (cdfCalls order filename s p2 p3 p4 p5)
      = attrNamesDeclaredIn .GLOBAL_SCOPE createGlobalAttributes ∧
    attrNamesDeclaredIn .VARIABLE_SCOPE (cdfCalls order filename s p2 p3 p4 p5)
      = attrNamesDeclaredIn .VARIABLE_SCOPE createVariableAttributes := by
  refine ⟨?_, ?_, ?_⟩ <;>
  simp [attrNamesDeclared, attrNamesDeclaredIn, cdfCalls, createzVars, createGlobalAttributes,
    writeGlobalAttributes, createVariableAttributes, writeEpochAttributes, writeLabelAttributes,
    writeSensorAttributes, writeSensorDslAttributes, writeBitmaskAttributes, writeData]

/-- C25: for a spacecraft id from 1 to 4, an invocation that ends without error has
declared five zVariables under pairwise distinct names, and 66 attributes, 34 of global
scope and 32 of variable scope, under names that are pairwise distinct across both scopes:
no declaration repeats a name the invocation declared before. -/
theorem declared_names_are_distinct (order : ArgOrder) (lib : CDFlib)
    (p0 p1 p2 p3 p4 p5 : mxArray)
    (hlo : 1 ≤ mxGetScalar p1) (hhi : mxGetScalar p1 ≤ 4)
    (hrun : (mexFunction order lib [p0, p1, p2, p3, p4, p5]).error = none) :
    (zVarNames (mexFunction order lib [p0, p1, p2, p3, p4, p5]).calls).length = 5 ∧
    (zVarNames (mexFunction order lib [p0, p1, p2, p3, p4, p5]).calls).Nodup ∧
    (attrNamesDeclaredIn .GLOBAL_SCOPE
      (mexFunction order lib [p0, p1, p2, p3, p4, p5]).calls).length = 34 ∧
    (attrNamesDeclaredIn .VARIABLE_SCOPE
      (mexFunction order lib [p0, p1, p2, p3, p4, p5]).calls).length = 32 ∧
    (attrNamesDeclared (mexFunction order lib [p0, p1, p2, p3, p4, p5]).calls).length = 66 ∧
    (attrNamesDeclared (mexFunction order lib [p0, p1, p2, p3, p4, p5]).calls).Nodup := by
  rw [calls_of_no_error order lib p0 p1 p2 p3 p4 p5 hlo hhi hrun, zVarNames_cdfCalls]
  have ha := attrNames_cdfCalls order (mxArrayToString p0) (mxGetScalar p1) p2 p3 p4 p5
  rw [ha.1, ha.2.1, ha.2.2]
  refine ⟨rfl, ?_, by decide, by decide, by decide, by decide⟩
  generalize mxGetScalar p1 = s at hlo hhi
  rcases sc_id_cases s hlo hhi with h | h | h | h <;> subst h <;> decide

/-- C25, at the scenario of the specification. -/
theorem declared_names_are_distinct_witness :
    (mexFunction .lengthFirst libAllOk
      [exFilename, exScId 2, exEpoch, exVectorA, exVectorB, exBitmask]).error = none ∧
    (zVarNames (mexFunction .lengthFirst libAllOk
      [exFilename, exScId 2, exEpoch, exVectorA, exVectorB, exBitmask]).calls).Nodup ∧
    (attrNamesDeclared (mexFunction .lengthFirst libAllOk
      [exFilename, exScId 2, exEpoch, exVectorA, exVectorB, exBitmask]).calls).Nodup :=
  ⟨by decide,
   (declared_names_are_distinct .lengthFirst libAllOk
      exFilename (exScId 2) exEpoch exVectorA exVectorB exBitmask
      (by decide) (by decide) (by decide)).2.1,
   (declared_names_are_distinct .lengthFirst libAllOk
      exFilename (exScId 2) exEpoch exVectorA exVectorB exBitmask
      (by decide) (by decide) (by decide)).2.2.2.2.2⟩

end IrfuCdfWrite
